import Mathlib

/-!
Verification of the sequencing and phase-publishing engine of a radio-style
playback backend.  The definitions below are a shallow embedding of the
Python sources:

* `backend/state/playback_state.py`  — the shared `PlaybackStatus` record and
  its mutators `update_phase`, `mark_playing`, `mark_stopped`;
* `backend/state/playback_flags.py`  — the legacy `PlaybackFlags` record;
* `backend/services/playback_ordering.py` — `order_rows_for_mode`;
* `backend/services/radio/heartbeat.py` — one iteration of `track_heartbeat`;
* `backend/services/collection_sequence.py` — `publish_narration_phase`,
  `run_collection_sequence`, `run_collection_continuous_sequence`;
* `backend/services/decade_genre_sequence.py` — `publish_narration_phase`
  (decade/genre variant), `_is_cancelled_or_stopped`,
  `run_decade_genre_sequence`;
* `backend/routers/playback_control.py` — `cancel_current_sequence`,
  `start_new_sequence`, and the `pause`/`resume` handlers.

Python floats are embedded as rationals (`ℚ`); Python dict contexts are
embedded as a record of the finitely many keys the engine ever reads or
writes.  Async runners are embedded as pure state-transformers that also
return the list of observable actions (phase publications, signal
clears/waits) they performed, with the external collaborators (catalog
fetch, narration-asset lookup, renderer cancellation writes, random source)
supplied as explicit environment parameters.
-/

/-- One catalog row, collapsed from the SQL result tuples
`(Track, Artist, ranking)` / `(track, artist, tr_rank, decade, genre)`:
the rank, display names and the optional Spotify streaming identifier
(`None`/empty is embedded as `none`). -/
structure Row where
  ranking : Int
  track_name : String
  artist_name : String
  spotify_track_id : Option String
deriving DecidableEq, Repr

/-- `PlaybackFlags` from `backend/state/playback_flags.py` (the fields the
engine reads or writes). -/
structure PlaybackFlags where
  is_playing : Bool := false
  is_paused : Bool := false
  stopped : Bool := true
  cancel_requested : Bool := false
  mode : Option String := none
  current_rank : Option Int := none
deriving DecidableEq, Repr

/-- A phase context dictionary.  The engine only ever reads the keys
`"elapsedSeconds"`/`"durationSeconds"` (camel case, read by `update_phase`)
and writes in addition the snake-case keys `"elapsed_seconds"`/
`"duration_seconds"` (written by the heartbeat's `_phase_context`, never
read by `update_phase`), a Spotify track id, a voice style, an audio url,
and other string-valued entries collected in `extra`. -/
structure PhaseCtx where
  elapsedSeconds : Option ℚ := none
  durationSeconds : Option ℚ := none
  elapsed_seconds_key : Option ℚ := none
  duration_seconds_key : Option ℚ := none
  spotify_track_id : Option String := none
  voice_style : Option String := none
  audio_url : Option String := none
  extra : List (String × String) := []
deriving DecidableEq, Repr

/-- `PlaybackStatus` from `backend/state/playback_state.py`.  `phase` is an
`Option` because the runners assign Python `None` to it during reset. -/
structure PlaybackStatus where
  is_playing : Bool := false
  is_paused : Bool := false
  stopped : Bool := true
  cancel_requested : Bool := false
  sequence_done : Bool := true
  language : String := "en"
  mode : Option String := none
  context : PhaseCtx := {}
  current_rank : Option Int := none
  elapsed_seconds : ℚ := 0
  duration_seconds : ℚ := 0
  percent_complete : ℚ := 0
  phase : Option String := some "idle"
  track_name : String := ""
  artist_name : String := ""
  bed_playing : Bool := false
deriving DecidableEq, Repr

/-- The keyword arguments a call site passes to `update_phase`; absent
keywords are `none`. -/
structure UpdateKw where
  is_playing : Option Bool := none
  current_rank : Option Int := none
  track_name : Option String := none
  artist_name : Option String := none
  context : Option PhaseCtx := none
deriving DecidableEq, Repr

/-- The `setattr(status, k, v)` loop of `update_phase`: every keyword
present is written to the corresponding `status` field (all keywords used
by call sites in the repository are covered). -/
def applyKw (st : PlaybackStatus) (kw : UpdateKw) : PlaybackStatus :=
  let st := match kw.is_playing with
    | some b => { st with is_playing := b }
    | none => st
  let st := match kw.current_rank with
    | some r => { st with current_rank := some r }
    | none => st
  let st := match kw.track_name with
    | some s => { st with track_name := s }
    | none => st
  let st := match kw.artist_name with
    | some s => { st with artist_name := s }
    | none => st
  match kw.context with
  | some c => { st with context := c }
  | none => st

/-- `update_phase` from `backend/state/playback_state.py`: sets the phase,
applies the keyword assignments, and — whenever a context dict was passed —
pulls `elapsedSeconds`/`durationSeconds` out of it and recomputes
`percent_complete` as `min 100 (elapsed / duration * 100)` when the stored
duration is positive, `0` otherwise. -/
def update_phase (st : PlaybackStatus) (phase : String) (kw : UpdateKw) :
    PlaybackStatus :=
  let st := { st with phase := some phase }
  let st := applyKw st kw
  match kw.context with
  | none => st
  | some ctx =>
    let st := match ctx.elapsedSeconds with
      | some e => { st with elapsed_seconds := e }
      | none => st
    let st := match ctx.durationSeconds with
      | some d => { st with duration_seconds := d }
      | none => st
    if (0 : ℚ) < st.duration_seconds then
      let pc : ℚ := min 100 (st.elapsed_seconds / st.duration_seconds * 100)
      { st with percent_complete := pc }
    else
      { st with percent_complete := 0 }

/-- `mark_playing` from `backend/state/playback_state.py`. -/
def mark_playing (st : PlaybackStatus) (mode : String) (language : String)
    (context : Option PhaseCtx) : PlaybackStatus :=
  let st := { st with
    is_playing := true
    is_paused := false
    stopped := false
    sequence_done := false
    mode := some mode
    language := language }
  match context with
  | some c => { st with context := c }
  | none => st

/-- `mark_stopped` from `backend/state/playback_state.py`. -/
def mark_stopped (st : PlaybackStatus) : PlaybackStatus :=
  { st with
    is_playing := false
    is_paused := false
    stopped := true
    cancel_requested := false
    sequence_done := true
    phase := some "idle"
    elapsed_seconds := 0
    duration_seconds := 0
    percent_complete := 0 }

/-- One iteration of the `while True` loop of `track_heartbeat`
(`backend/services/radio/heartbeat.py`), with `elapsed := time() - start_ts`
supplied as a parameter and the skip event's current value as `skipSet`.
The iteration writes the clock fields directly (with the *unclamped* `0..1`
ratio), publishes a `track` frame through `update_phase` whose context only
carries the snake-case keys built by `_phase_context`, and on completion
(`elapsed >= total` or skip) rewrites the clocks, marks stopped, and
publishes an `idle` frame.  Returns the new status and whether the
heartbeat terminated. -/
def track_heartbeat_tick (st : PlaybackStatus) (elapsed total : ℚ)
    (skipSet : Bool) (rank : Option Int) (track_name artist_name : String) :
    PlaybackStatus × Bool :=
  let st := { st with
    elapsed_seconds := elapsed
    duration_seconds := total
    percent_complete := if total = 0 then 0 else elapsed / total }
  let st := update_phase st "track"
    { current_rank := rank.map id
      track_name := some track_name
      artist_name := some artist_name
      context := some { elapsed_seconds_key := some elapsed,
                        duration_seconds_key := some total } }
  if total ≤ elapsed ∨ skipSet = true then
    let st := { st with
      elapsed_seconds := total
      duration_seconds := total
      percent_complete := if total = 0 then 0 else 1
      is_playing := false
      is_paused := false
      stopped := true }
    let st := update_phase st "idle"
      { current_rank := rank.map id
        track_name := some track_name
        artist_name := some artist_name
        context := some { elapsed_seconds_key := some total,
                          duration_seconds_key := some total } }
    (st, true)
  else
    (st, false)

/-- The pick-one-and-remove shuffle used to embed `random.shuffle`
(CPython standard library, outside this repository): the random source is
an explicit list of naturals, each pick takes index `k % length` and
removes it.  Any run of `random.shuffle` realises some permutation of its
input; this model produces exactly the permutations as the oracle varies. -/
def shuffleModel : List Nat → List α → List α
  | [], l => l
  | _ :: _, [] => []
  | k :: ks, x :: xs =>
    let l := x :: xs
    let j := k % l.length
    l.getD j x :: shuffleModel ks (l.eraseIdx j)

/-- The comparison key of `order_rows_for_mode`: `r[2].ranking`. -/
def rowLe (a b : Row) : Prop := a.ranking ≤ b.ranking

/-- The reversed comparison used for `mode="count_down"`
(`rows.sort(key=..., reverse=True)`). -/
def rowGe (a b : Row) : Prop := b.ranking ≤ a.ranking

instance : DecidableRel rowLe := fun a b => inferInstanceAs (Decidable (a.ranking ≤ b.ranking))

instance : DecidableRel rowGe := fun a b => inferInstanceAs (Decidable (b.ranking ≤ a.ranking))

/-- `order_rows_for_mode` from `backend/services/playback_ordering.py`:
empty input is returned as is; `"count_up"` stably sorts by `ranking`
ascending, `"count_down"` stably sorts by `ranking` descending (Python's
stable `list.sort`), anything else shuffles.  The stable sort is embedded
as Mathlib's stable `List.insertionSort`. -/
def order_rows_for_mode (rows : List Row) (mode : String)
    (oracle : List Nat) : List Row :=
  if rows = [] then rows
  else if mode = "count_up" then List.insertionSort rowLe rows
  else if mode = "count_down" then List.insertionSort rowGe rows
  else shuffleModel oracle rows

/-- Modelled from the spec: the module `backend.state.narration` (and
`backend.state.skip`) is not present under `src/`; the spec describes its
contents as binary signals (`narrationDoneSignal` / `trackDoneSignal` /
`skipSignal`, i.e. `asyncio.Event`s) that external callers set, that the
engine clears before waiting, and whose "already set" state is treated as
stale and discarded.  An event is embedded as its boolean set/clear
state. -/
structure Events where
  narration_done : Bool := false
  track_done : Bool := false
  skip_ev : Bool := false
deriving DecidableEq, Repr

/-- An observable step performed by a runner.  `phasePub ph id` is an
`update_phase ph ...` call whose context carries the Spotify track id `id`
(`none` for narration/loading/prelude frames); `waitNarrationDone b`
records the value of the narration-done signal at the moment the wait
begins (after the preceding clear). -/
inductive Act where
  | fetchRows
  | markPlayingAct
  | phasePub (phase : String) (spotifyId : Option String)
  | clearNarrationDone
  | waitNarrationDone (setAtEntry : Bool)
  | clearTrackDone
  | waitTrackDone
deriving DecidableEq, Repr

/-- How a runner's coroutine terminated: returned normally, re-raised
`asyncio.CancelledError`, swallowed a generic exception in its outer
`except`, or would have raised an uncaught `IndexError` (`rows[0]` on an
empty list — unreachable). -/
inductive Outcome where
  | normal
  | cancelledRaised
  | errorSwallowed
  | indexError
deriving DecidableEq, Repr

/-- A fault injected by the environment while the runner's `try` body is
executing: none, a task cancellation, or a generic exception raised by an
awaited collaborator. -/
inductive Fault where
  | noFault
  | cancelled
  | exn
deriving DecidableEq, Repr

/-- The result of running one embedded sequence runner. -/
structure RunOut where
  status : PlaybackStatus
  flags : PlaybackFlags
  events : Events
  trace : List Act
  outcome : Outcome
  selected : Option Row
deriving Repr

/-- `publish_narration_phase` from
`backend/services/collection_sequence.py`: resolves the audio reference
(resolver supplied as the external collaborator it is), publishes the
phase frame, and — only for `voice_style == "before"` — clears
`narration_done_event` and waits for it; the wait suspends until the
renderer sets the event anew (the event is set when the wait returns). -/
def publish_narration_phase (st : PlaybackStatus) (ev : Events)
    (phase : String) (track artist : Row) (rank : Int)
    (collection_slug bucket key voice_style : String)
    (resolver : String → String → String) :
    PlaybackStatus × Events × List Act :=
  let audio_url := resolver bucket key
  let st := update_phase st phase
    { track_name := some track.track_name
      artist_name := some artist.artist_name
      current_rank := some rank
      context := some { spotify_track_id := none
                        voice_style := some voice_style
                        audio_url := some audio_url
                        extra := [("mode", "collection"),
                                  ("collection_slug", collection_slug),
                                  ("bucket", bucket), ("key", key)] } }
  if voice_style = "before" then
    let ev := { ev with narration_done := false }
    let entry := ev.narration_done
    let ev := { ev with narration_done := true }
    (st, ev, [Act.phasePub phase none, Act.clearNarrationDone,
              Act.waitNarrationDone entry])
  else
    (st, ev, [Act.phasePub phase none])

/-- `publish_narration_phase` from
`backend/services/decade_genre_sequence.py` (the decade/genre variant;
identical control flow, decade/genre context fields). -/
def dg_publish_narration_phase (st : PlaybackStatus) (ev : Events)
    (phase : String) (track artist : Row) (rank : Int)
    (decade genre bucket key voice_style : String)
    (resolver : String → String → String) :
    PlaybackStatus × Events × List Act :=
  let audio_url := resolver bucket key
  let st := update_phase st phase
    { track_name := some track.track_name
      artist_name := some artist.artist_name
      current_rank := some rank
      context := some { spotify_track_id := none
                        voice_style := some voice_style
                        audio_url := some audio_url
                        extra := [("lang", st.language),
                                  ("mode", "decade_genre"),
                                  ("decade", decade), ("genre", genre),
                                  ("bucket", bucket), ("key", key)] } }
  if voice_style = "before" then
    let ev := { ev with narration_done := false }
    let entry := ev.narration_done
    let ev := { ev with narration_done := true }
    (st, ev, [Act.phasePub phase none, Act.clearNarrationDone,
              Act.waitNarrationDone entry])
  else
    (st, ev, [Act.phasePub phase none])

/-- `_is_cancelled_or_stopped` from
`backend/services/decade_genre_sequence.py`: true when either the new
`status` record or the legacy `flags` record has `stopped` or
`cancel_requested` set. -/
def is_cancelled_or_stopped (st : PlaybackStatus) (fl : PlaybackFlags) :
    Bool :=
  st.stopped || st.cancel_requested || fl.stopped || fl.cancel_requested

/-- The inline ordering done by the collection runners
(`collection_sequence.py` lines 147-150 and 347-350): `count_down`
reverses, `random` shuffles in place, `count_up` keeps the
ranking-ascending order the SQL query produced. -/
def inline_order (rows : List Row) (mode : String) (oracle : List Nat) :
    List Row :=
  if mode = "count_down" then rows.reverse
  else if mode = "random" then shuffleModel oracle rows
  else rows

/-- Environment of `run_collection_sequence`: the call parameters plus the
external collaborators — the DB fetch result (`rows`, ranking-ascending as
produced by the query's `order_by`), the random source, the
narration-asset lookups (`collection_intro_jobs` / `narration_keys_for`
results per row; `some (bucket, key)` stands for a non-empty jobs list
with truthy bucket and key), and the audio-reference resolver. -/
structure CollEnv where
  collection_slug : String
  tts_language : String
  rows : List Row
  mode : String
  shuffle_oracle : List Nat
  play_intro : Bool
  play_detail : Bool
  play_artist_description : Bool
  play_track : Bool
  voice_style : String
  intro_job : Row → Option (String × String)
  detail_key : Row → Option (String × String)
  artist_key : Row → Option (String × String)
  resolver : String → String → String

/-- The intro step of the collection runners (`if play_intro: ... if
bucket and key: await publish_narration_phase("intro", ...)`). -/
def coll_intro_step (env : CollEnv) (row : Row) (st : PlaybackStatus)
    (ev : Events) : PlaybackStatus × Events × List Act :=
  if env.play_intro then
    match env.intro_job row with
    | some bk =>
      publish_narration_phase st ev "intro" row row row.ranking
        env.collection_slug bk.1 bk.2 env.voice_style env.resolver
    | none => (st, ev, [])
  else (st, ev, [])

/-- The detail step of the collection runners. -/
def coll_detail_step (env : CollEnv) (row : Row) (st : PlaybackStatus)
    (ev : Events) : PlaybackStatus × Events × List Act :=
  if env.play_detail then
    match env.detail_key row with
    | some bk =>
      publish_narration_phase st ev "detail" row row row.ranking
        env.collection_slug bk.1 bk.2 env.voice_style env.resolver
    | none => (st, ev, [])
  else (st, ev, [])

/-- The artist step of the collection runners. -/
def coll_artist_step (env : CollEnv) (row : Row) (st : PlaybackStatus)
    (ev : Events) : PlaybackStatus × Events × List Act :=
  if env.play_artist_description then
    match env.artist_key row with
    | some bk =>
      publish_narration_phase st ev "artist" row row row.ranking
        env.collection_slug bk.1 bk.2 env.voice_style env.resolver
    | none => (st, ev, [])
  else (st, ev, [])

/-- `run_collection_sequence` from
`backend/services/collection_sequence.py` (the single-rank publisher): DB
fetch, return on empty (before `mark_playing`), `mark_playing`, inline
ordering, select `rows[0]`, the enabled narration steps, then — when
`play_track` and the row has a Spotify id — publish the `track` frame and
return.  The function has no `try`/`finally`; it never waits on
`track_done_event`. -/
def run_collection_sequence (env : CollEnv) (st0 : PlaybackStatus)
    (fl0 : PlaybackFlags) (ev0 : Events) : RunOut :=
  match env.rows with
  | [] =>
    { status := st0, flags := fl0, events := ev0,
      trace := [Act.fetchRows], outcome := Outcome.normal, selected := none }
  | r0 :: rs =>
    let st1 := mark_playing st0 "collection" env.tts_language none
    match inline_order (r0 :: rs) env.mode env.shuffle_oracle with
    | [] =>
      { status := st1, flags := fl0, events := ev0,
        trace := [Act.fetchRows, Act.markPlayingAct],
        outcome := Outcome.indexError, selected := none }
    | row :: _ =>
      let s2 := coll_intro_step env row st1 ev0
      let s3 := coll_detail_step env row s2.1 s2.2.1
      let s4 := coll_artist_step env row s3.1 s3.2.1
      let trackPart :=
        if env.play_track then
          match row.spotify_track_id with
          | some tid =>
            let st5 := update_phase s4.1 "track"
              { track_name := some row.track_name
                artist_name := some row.artist_name
                current_rank := some row.ranking
                context := some { spotify_track_id := some tid
                                  extra := [("mode", "spotify"),
                                    ("collection_slug", env.collection_slug)] } }
            (st5, [Act.phasePub "track" (some tid)])
          | none => (s4.1, ([] : List Act))
        else (s4.1, ([] : List Act))
      { status := trackPart.1, flags := fl0, events := s4.2.1,
        trace := [Act.fetchRows, Act.markPlayingAct] ++ s2.2.2 ++ s3.2.2
          ++ s4.2.2 ++ trackPart.2,
        outcome := Outcome.normal, selected := some row }

/-- Environment of `run_decade_genre_sequence`: call parameters plus
collaborators.  `fetch = none` embeds `asyncio.TimeoutError` raised by the
30-second `asyncio.wait_for` around `load_decade_genre_rows`;
`fetch = some rows` is a completed fetch.  `fault` injects an exception
(or task cancellation) raised by an awaited call inside the `try` body. -/
structure DgEnv where
  decade : String
  genre : String
  start_rank : Int
  end_rank : Int
  mode : String
  tts_language : String
  play_intro : Bool
  play_detail : Bool
  play_artist_description : Bool
  play_track : Bool
  voice_style : String
  fetch : Option (List Row)
  shuffle_oracle : List Nat
  shuffle_oracle2 : List Nat
  intro_job : Row → Option (String × String)
  detail_key : Row → Option (String × String)
  artist_key : Row → Option (String × String)
  resolver : String → String → String
  fault : Fault

/-- The intro publish of the decade/genre runner (`if play_intro and
intro_jobs: ... if ib and ik: await publish_narration_phase("intro", ...)`). -/
def dg_intro_step (env : DgEnv) (row : Row) (st : PlaybackStatus)
    (ev : Events) : PlaybackStatus × Events × List Act :=
  if env.play_intro then
    match env.intro_job row with
    | some bk =>
      dg_publish_narration_phase st ev "intro" row row row.ranking
        env.decade env.genre bk.1 bk.2 env.voice_style env.resolver
    | none => (st, ev, [])
  else (st, ev, [])

/-- The detail publish of the decade/genre runner. -/
def dg_detail_step (env : DgEnv) (row : Row) (st : PlaybackStatus)
    (ev : Events) : PlaybackStatus × Events × List Act :=
  if env.play_detail then
    match env.detail_key row with
    | some bk =>
      dg_publish_narration_phase st ev "detail" row row row.ranking
        env.decade env.genre bk.1 bk.2 env.voice_style env.resolver
    | none => (st, ev, [])
  else (st, ev, [])

/-- The artist publish of the decade/genre runner. -/
def dg_artist_step (env : DgEnv) (row : Row) (st : PlaybackStatus)
    (ev : Events) : PlaybackStatus × Events × List Act :=
  if env.play_artist_description then
    match env.artist_key row with
    | some bk =>
      dg_publish_narration_phase st ev "artist" row row row.ranking
        env.decade env.genre bk.1 bk.2 env.voice_style env.resolver
    | none => (st, ev, [])
  else (st, ev, [])

/-- The `finally` block of `run_decade_genre_sequence` (and of
`run_collection_continuous_sequence`): unconditionally reset the legacy
flags (`flags.is_playing = False; flags.stopped = True`); `status` is not
touched. -/
def runner_teardown (o : RunOut) : RunOut :=
  { o with flags := { o.flags with is_playing := false, stopped := true } }

/-- `run_decade_genre_sequence` from
`backend/services/decade_genre_sequence.py`: reset `status` and legacy
`flags`, `mark_playing`, publish a `loading` frame, then inside
`try`: fetch under a 30s timeout (a timeout is logged and the coroutine
plainly returns), return on zero rows, the `_is_cancelled_or_stopped`
check, the pause-poll loop (`status.is_paused` was just cleared by
`mark_playing`, so it makes no state change here), ordering (plus the
extra `random.shuffle` for `mode="random"`), selection of `rows[0]`,
publishes of prelude / enabled narrations / track frame, and in `finally`
the flags teardown.  `CancelledError` is re-raised, any other exception is
swallowed. -/
def run_decade_genre_sequence (env : DgEnv) (st0 : PlaybackStatus)
    (fl0 : PlaybackFlags) (ev0 : Events) : RunOut :=
  let st1 := { st0 with
    stopped := false
    cancel_requested := false
    language := env.tts_language
    phase := none
    bed_playing := false }
  let fl1 := { fl0 with
    is_playing := true
    stopped := false
    cancel_requested := false
    current_rank := some env.start_rank
    mode := some "decade_genre" }
  let st2 := mark_playing st1 "decade_genre" env.tts_language
    (some { extra := [("decade", env.decade), ("genre", env.genre),
                      ("order", env.mode)] })
  let st3 := update_phase st2 "loading"
    { current_rank := some env.start_rank
      track_name := some ""
      artist_name := some ""
      context := some { extra := [("lang", env.tts_language),
        ("mode", "decade_genre"), ("decade", env.decade),
        ("genre", env.genre)] } }
  let pre : List Act := [Act.markPlayingAct, Act.phasePub "loading" none]
  runner_teardown <|
    match env.fault with
    | Fault.cancelled =>
      { status := st3, flags := fl1, events := ev0, trace := pre,
        outcome := Outcome.cancelledRaised, selected := none }
    | Fault.exn =>
      { status := st3, flags := fl1, events := ev0, trace := pre,
        outcome := Outcome.errorSwallowed, selected := none }
    | Fault.noFault =>
      match env.fetch with
      | none =>
        { status := st3, flags := fl1, events := ev0,
          trace := pre ++ [Act.fetchRows], outcome := Outcome.normal,
          selected := none }
      | some [] =>
        { status := st3, flags := fl1, events := ev0,
          trace := pre ++ [Act.fetchRows], outcome := Outcome.normal,
          selected := none }
      | some (r0 :: rs) =>
        if is_cancelled_or_stopped st3 fl1 then
          { status := st3, flags := fl1, events := ev0,
            trace := pre ++ [Act.fetchRows], outcome := Outcome.normal,
            selected := none }
        else
          let ordered := order_rows_for_mode (r0 :: rs) env.mode
            env.shuffle_oracle
          let ordered := if env.mode = "random" then
            shuffleModel env.shuffle_oracle2 ordered else ordered
          match ordered with
          | [] =>
            { status := st3, flags := fl1, events := ev0,
              trace := pre ++ [Act.fetchRows],
              outcome := Outcome.indexError, selected := none }
          | row :: _ =>
            let fl2 := { fl1 with current_rank := some row.ranking }
            let st4 := update_phase st3 "prelude"
              { is_playing := some true
                current_rank := some row.ranking
                track_name := some row.track_name
                artist_name := some row.artist_name
                context := some { voice_style := some env.voice_style
                                  extra := [("lang", env.tts_language),
                                    ("mode", "decade_genre"),
                                    ("decade", env.decade),
                                    ("genre", env.genre)] } }
            let s5 := dg_intro_step env row st4 ev0
            let s6 := dg_detail_step env row s5.1 s5.2.1
            let s7 := dg_artist_step env row s6.1 s6.2.1
            let trackPart :=
              if env.play_track then
                match row.spotify_track_id with
                | some tid =>
                  let st8 := update_phase s7.1 "track"
                    { track_name := some row.track_name
                      artist_name := some row.artist_name
                      current_rank := some row.ranking
                      context := some { spotify_track_id := some tid
                                        extra := [("mode", "spotify"),
                                          ("decade", env.decade),
                                          ("genre", env.genre)] } }
                  (st8, [Act.phasePub "track" (some tid)])
                | none => (s7.1, ([] : List Act))
              else (s7.1, ([] : List Act))
            { status := trackPart.1, flags := fl2, events := s7.2.1,
              trace := pre ++ [Act.fetchRows, Act.phasePub "prelude" none]
                ++ s5.2.2 ++ s6.2.2 ++ s7.2.2 ++ trackPart.2,
              outcome := Outcome.normal, selected := some row }

/-- Environment of `run_collection_continuous_sequence`.  `cancel_at i`
(true) embeds an external `stop`/`cancel` write to the shared status that
the loop's `status.stopped or status.cancel_requested` check at the top of
iteration `i` observes; waits on `track_done_event` are assumed to be
eventually answered by the renderer (the spec's open question about
missing wait timeouts is out of scope of the loop's ordering). -/
structure ContEnv where
  collection_slug : String
  tts_language : String
  start_rank : Int
  rows : List Row
  mode : String
  shuffle_oracle : List Nat
  play_intro : Bool
  play_detail : Bool
  play_artist_description : Bool
  play_track : Bool
  voice_style : String
  intro_job : Row → Option (String × String)
  detail_key : Row → Option (String × String)
  artist_key : Row → Option (String × String)
  resolver : String → String → String
  cancel_at : List Bool
  fault : Fault

/-- The `CollEnv` view of a `ContEnv` (the narration steps of the
continuous loop are the very same code as the single-rank runner's). -/
def ContEnv.toColl (env : ContEnv) : CollEnv :=
  { collection_slug := env.collection_slug
    tts_language := env.tts_language
    rows := env.rows
    mode := env.mode
    shuffle_oracle := env.shuffle_oracle
    play_intro := env.play_intro
    play_detail := env.play_detail
    play_artist_description := env.play_artist_description
    play_track := env.play_track
    voice_style := env.voice_style
    intro_job := env.intro_job
    detail_key := env.detail_key
    artist_key := env.artist_key
    resolver := env.resolver }

/-- The track step at the end of one continuous-loop iteration: when
`play_track` and the row has a Spotify id, `track_done_event.clear()`, the
`track` frame publish, and the `await track_done_event.wait()` (answered
by the renderer, which leaves the event set). -/
def cont_track_step (env : ContEnv) (row : Row) (st : PlaybackStatus)
    (ev : Events) : PlaybackStatus × Events × List Act :=
  if env.play_track then
    match row.spotify_track_id with
    | some tid =>
      let ev5 := { ev with track_done := false }
      let st5 := update_phase st "track"
        { track_name := some row.track_name
          artist_name := some row.artist_name
          current_rank := some row.ranking
          context := some { spotify_track_id := some tid
                            extra := [("mode", "spotify"),
                              ("collection_slug", env.collection_slug)] } }
      let ev6 := { ev5 with track_done := true }
      (st5, ev6, [Act.clearTrackDone, Act.phasePub "track" (some tid),
        Act.waitTrackDone])
    | none => (st, ev, [])
  else (st, ev, [])

/-- One iteration body of the `for (track, artist, rank) in rows:` loop of
`run_collection_continuous_sequence` (after the cancel check): prelude
frame, the enabled narration steps (the same code as the single-rank
runner), then the track step.  Returns the new status/flags/events and the
iteration actions. -/
def cont_item_run (env : ContEnv) (row : Row) (st : PlaybackStatus)
    (fl : PlaybackFlags) (ev : Events) :
    PlaybackStatus × PlaybackFlags × Events × List Act :=
  let fl := { fl with current_rank := some row.ranking }
  let st := update_phase st "prelude"
    { is_playing := some true
      current_rank := some row.ranking
      track_name := some row.track_name
      artist_name := some row.artist_name
      context := some { voice_style := some env.voice_style
                        extra := [("lang", env.tts_language),
                          ("mode", "collection"),
                          ("collection_slug", env.collection_slug)] } }
  let s2 := coll_intro_step env.toColl row st ev
  let s3 := coll_detail_step env.toColl row s2.1 s2.2.1
  let s4 := coll_artist_step env.toColl row s3.1 s3.2.1
  let s5 := cont_track_step env row s4.1 s4.2.1
  (s5.1, fl, s5.2.1,
    Act.phasePub "prelude" none :: s2.2.2 ++ s3.2.2 ++ s4.2.2 ++ s5.2.2)

/-- The radio loop of `run_collection_continuous_sequence`, one recursive
step per item.  Each iteration: external cancel writes (if any) land, the
`status.stopped or status.cancel_requested` check runs, then the iteration
body; after a published track frame the loop only advances once the
`track_done_event` wait returns. -/
def cont_loop (env : ContEnv) : Nat → List Row → PlaybackStatus →
    PlaybackFlags → Events → RunOut
  | _, [], st, fl, ev =>
    { status := st, flags := fl, events := ev, trace := [],
      outcome := Outcome.normal, selected := none }
  | i, row :: rest, st, fl, ev =>
    let st := if env.cancel_at.getD i false then
      { st with cancel_requested := true } else st
    if st.stopped || st.cancel_requested then
      { status := st, flags := fl, events := ev, trace := [],
        outcome := Outcome.normal, selected := none }
    else
      let b := cont_item_run env row st fl ev
      let restOut := cont_loop env (i + 1) rest b.1 b.2.1 b.2.2.1
      { restOut with trace := b.2.2.2 ++ restOut.trace }

/-- `run_collection_continuous_sequence` from
`backend/services/collection_sequence.py`: reset of `status` and legacy
`flags`, `mark_playing`, the `loading` frame, then in `try`: the DB fetch,
return on zero rows, inline ordering, the radio loop, and in `finally` the
flags teardown. -/
def run_collection_continuous_sequence (env : ContEnv)
    (st0 : PlaybackStatus) (fl0 : PlaybackFlags) (ev0 : Events) : RunOut :=
  let st1 := { st0 with
    stopped := false
    cancel_requested := false
    language := env.tts_language
    phase := none
    bed_playing := false }
  let fl1 := { fl0 with
    is_playing := true
    stopped := false
    cancel_requested := false
    current_rank := some env.start_rank
    mode := some "collection" }
  let st2 := mark_playing st1 "collection" env.tts_language
    (some { extra := [("collection_slug", env.collection_slug),
                      ("order", env.mode)] })
  let st3 := update_phase st2 "loading"
    { current_rank := some env.start_rank
      track_name := some ""
      artist_name := some ""
      context := some { extra := [("lang", env.tts_language),
        ("mode", "collection"),
        ("collection_slug", env.collection_slug)] } }
  let pre : List Act := [Act.markPlayingAct, Act.phasePub "loading" none]
  runner_teardown <|
    match env.fault with
    | Fault.cancelled =>
      { status := st3, flags := fl1, events := ev0, trace := pre,
        outcome := Outcome.cancelledRaised, selected := none }
    | Fault.exn =>
      { status := st3, flags := fl1, events := ev0, trace := pre,
        outcome := Outcome.errorSwallowed, selected := none }
    | Fault.noFault =>
      match env.rows with
      | [] =>
        { status := st3, flags := fl1, events := ev0,
          trace := pre ++ [Act.fetchRows], outcome := Outcome.normal,
          selected := none }
      | r0 :: rs =>
        let ordered := inline_order (r0 :: rs) env.mode env.shuffle_oracle
        let o := cont_loop env 0 ordered st3 fl1 ev0
        { o with trace := pre ++ [Act.fetchRows] ++ o.trace }

/-- The per-item action trace of the continuous loop, as a standalone
function of the environment and the item (the loop's actions do not
depend on the evolving status/event state). -/
def cont_item_trace (env : ContEnv) (row : Row) : List Act :=
  let narr : String → List Act := fun ph =>
    Act.phasePub ph none ::
      (if env.voice_style = "before" then
        [Act.clearNarrationDone, Act.waitNarrationDone false] else [])
  Act.phasePub "prelude" none ::
    ((if env.play_intro then
        match env.intro_job row with
        | some _ => narr "intro"
        | none => []
      else []) ++
     (if env.play_detail then
        match env.detail_key row with
        | some _ => narr "detail"
        | none => []
      else []) ++
     (if env.play_artist_description then
        match env.artist_key row with
        | some _ => narr "artist"
        | none => []
      else []) ++
     (if env.play_track then
        match row.spotify_track_id with
        | some tid => [Act.clearTrackDone, Act.phasePub "track" (some tid),
            Act.waitTrackDone]
        | none => []
      else []))

/-- How many items the continuous loop processes before an external
cancel/stop write is observed, starting at loop index `i`. -/
def cont_take (cancel_at : List Bool) : Nat → List Row → Nat
  | _, [] => 0
  | i, _ :: rest =>
    if cancel_at.getD i false then 0
    else cont_take cancel_at (i + 1) rest + 1

/-- The state manipulated by `backend/routers/playback_control.py`: the
legacy flags, the module-global `current_task` reference, the set of
spawned-and-not-yet-cancelled sequence tasks (ids), a fresh-id counter,
and the external Spotify device volume.  A task leaves `live` when
`current_task.cancel()` is called on it (cooperative cancellation as the
spec defines it: a cancelled task unwinds at its next suspension point and
performs no further state mutation). -/
structure LaunchSt where
  flags : PlaybackFlags
  current : Option Nat
  live : List Nat
  nextId : Nat
  volume : Nat
deriving DecidableEq, Repr

/-- `cancel_current_sequence` from `backend/routers/playback_control.py`,
as the list of states after each of its atomic steps: the
cancel-the-task branch (sets `flags.cancel_requested = True`, cancels and
drops `current_task`), the unconditional flag writes
(`is_playing = False`, `stopped = True`, `is_paused = False`), the 0.15 s
grace sleep, the volume restore to 100, and the final
`flags.cancel_requested = False`.  Both `task.cancel()` and the volume
restore are wrapped in `try`/`except`, and nothing else can raise, so the
function always returns normally. -/
def cancel_current_sequence (s : LaunchSt) : LaunchSt × List LaunchSt :=
  let s1 := match s.current with
    | some t =>
      { s with
        flags := { s.flags with cancel_requested := true }
        current := none
        live := s.live.erase t }
    | none => s
  let s2 := { s1 with flags := { s1.flags with
    is_playing := false
    stopped := true
    is_paused := false } }
  let s3 := s2
  let s4 := { s3 with volume := 100 }
  let s5 := { s4 with flags := { s4.flags with cancel_requested := false } }
  (s5, [s1, s2, s3, s4, s5])

/-- `start_new_sequence` from `backend/routers/playback_control.py`: under
the global `sequence_lock`, run `cancel_current_sequence`, then set
`flags.stopped = False`, `flags.is_playing = True`,
`flags.cancel_requested = False`, and spawn the new task, storing it in
`current_task`.  Returned together with the list of states after each
atomic step of the critical section (the lock serialises concurrent
callers, so a concurrent execution is some sequential execution of these
critical sections). -/
def start_new_sequence (s : LaunchSt) : LaunchSt × List LaunchSt :=
  let c := cancel_current_sequence s
  let s6 := { c.1 with flags := { c.1.flags with
    stopped := false
    is_playing := true
    cancel_requested := false } }
  let s7 := { s6 with
    current := some s6.nextId
    live := s6.live ++ [s6.nextId]
    nextId := s6.nextId + 1 }
  (s7, c.2 ++ [s6, s7])

/-- `n` sequential `start_new_sequence` calls (the serialisation the
global lock enforces), with every intermediate state collected. -/
def run_calls : Nat → LaunchSt → LaunchSt × List LaunchSt
  | 0, s => (s, [])
  | n + 1, s =>
    let c := start_new_sequence s
    let r := run_calls n c.1
    (r.1, c.2 ++ r.2)

/-- The single-flight well-formedness of the launcher state: the live
task is exactly the one `current_task` points to (or there is none). -/
def launchInv (s : LaunchSt) : Prop :=
  (s.current = none ∧ s.live = []) ∨
    ∃ t, s.current = some t ∧ s.live = [t]

/-- The `pause` handler of `backend/routers/playback_control.py` (its
writes to the shared flags; it also sets the skip event and stops the
remote device). -/
def pause_handler (fl : PlaybackFlags) (ev : Events) :
    PlaybackFlags × Events :=
  ({ fl with is_paused := true, is_playing := false, cancel_requested := true },
   { ev with skip_ev := true })

/-- The `resume` handler of `backend/routers/playback_control.py`: note it
does not clear `cancel_requested`. -/
def resume_handler (fl : PlaybackFlags) : PlaybackFlags :=
  { fl with is_paused := false, is_playing := true }

/-! Helper lemmas about the embedded operations. -/
theorem applyKw_stopped (st : PlaybackStatus) (kw : UpdateKw) :
    (applyKw st kw).stopped = st.stopped := by
  unfold applyKw
  repeat' split
  all_goals rfl

theorem applyKw_cancel_requested (st : PlaybackStatus) (kw : UpdateKw) :
    (applyKw st kw).cancel_requested = st.cancel_requested := by
  unfold applyKw
  repeat' split
  all_goals rfl

theorem applyKw_is_paused (st : PlaybackStatus) (kw : UpdateKw) :
    (applyKw st kw).is_paused = st.is_paused := by
  unfold applyKw
  repeat' split
  all_goals rfl

theorem update_phase_stopped (st : PlaybackStatus) (ph : String)
    (kw : UpdateKw) : (update_phase st ph kw).stopped = st.stopped := by
  unfold update_phase
  repeat' split
  all_goals simp [applyKw_stopped, apply_ite]

theorem update_phase_cancel_requested (st : PlaybackStatus) (ph : String)
    (kw : UpdateKw) :
    (update_phase st ph kw).cancel_requested = st.cancel_requested := by
  unfold update_phase
  repeat' split
  all_goals simp [applyKw_cancel_requested, apply_ite]
/-- The action trace a narration publish emits: the phase frame, then for
`"before"` the clear and the wait (which always sees the cleared, i.e.
non-stale, signal value `false`). -/
def narrTrace (vs ph : String) : List Act :=
  Act.phasePub ph none ::
    (if vs = "before" then
      [Act.clearNarrationDone, Act.waitNarrationDone false] else [])

theorem publish_trace (st : PlaybackStatus) (ev : Events) (ph : String)
    (t a : Row) (r : Int) (slug b k vs : String)
    (res : String → String → String) :
    (publish_narration_phase st ev ph t a r slug b k vs res).2.2 =
      narrTrace vs ph := by
  unfold publish_narration_phase narrTrace
  split <;> simp_all

theorem dg_publish_trace (st : PlaybackStatus) (ev : Events) (ph : String)
    (t a : Row) (r : Int) (dec gen b k vs : String)
    (res : String → String → String) :
    (dg_publish_narration_phase st ev ph t a r dec gen b k vs res).2.2 =
      narrTrace vs ph := by
  unfold dg_publish_narration_phase narrTrace
  split <;> simp_all

theorem publish_stopped (st : PlaybackStatus) (ev : Events) (ph : String)
    (t a : Row) (r : Int) (slug b k vs : String)
    (res : String → String → String) :
    (publish_narration_phase st ev ph t a r slug b k vs res).1.stopped
      = st.stopped := by
  unfold publish_narration_phase
  split <;> simp [update_phase_stopped]

theorem publish_cancel_requested (st : PlaybackStatus) (ev : Events)
    (ph : String) (t a : Row) (r : Int) (slug b k vs : String)
    (res : String → String → String) :
    (publish_narration_phase st ev ph t a r slug b k vs
      res).1.cancel_requested = st.cancel_requested := by
  unfold publish_narration_phase
  split <;> simp [update_phase_cancel_requested]
theorem coll_intro_trace (env : CollEnv) (row : Row) (st : PlaybackStatus)
    (ev : Events) :
    (coll_intro_step env row st ev).2.2 =
      (if env.play_intro = true then
        (match env.intro_job row with
         | some _ => narrTrace env.voice_style "intro"
         | none => [])
      else []) := by
  unfold coll_intro_step
  split
  · split <;> simp [publish_trace]
  · simp_all

theorem coll_detail_trace (env : CollEnv) (row : Row) (st : PlaybackStatus)
    (ev : Events) :
    (coll_detail_step env row st ev).2.2 =
      (if env.play_detail = true then
        (match env.detail_key row with
         | some _ => narrTrace env.voice_style "detail"
         | none => [])
      else []) := by
  unfold coll_detail_step
  split
  · split <;> simp [publish_trace]
  · simp_all

theorem coll_artist_trace (env : CollEnv) (row : Row) (st : PlaybackStatus)
    (ev : Events) :
    (coll_artist_step env row st ev).2.2 =
      (if env.play_artist_description = true then
        (match env.artist_key row with
         | some _ => narrTrace env.voice_style "artist"
         | none => [])
      else []) := by
  unfold coll_artist_step
  split
  · split <;> simp [publish_trace]
  · simp_all

theorem coll_intro_stopped (env : CollEnv) (row : Row)
    (st : PlaybackStatus) (ev : Events) :
    (coll_intro_step env row st ev).1.stopped = st.stopped := by
  unfold coll_intro_step
  split
  · split <;> simp [publish_stopped]
  · rfl

theorem coll_intro_cancel (env : CollEnv) (row : Row) (st : PlaybackStatus)
    (ev : Events) :
    (coll_intro_step env row st ev).1.cancel_requested
      = st.cancel_requested := by
  unfold coll_intro_step
  split
  · split <;> simp [publish_cancel_requested]
  · rfl

theorem coll_detail_stopped (env : CollEnv) (row : Row)
    (st : PlaybackStatus) (ev : Events) :
    (coll_detail_step env row st ev).1.stopped = st.stopped := by
  unfold coll_detail_step
  split
  · split <;> simp [publish_stopped]
  · rfl

theorem coll_detail_cancel (env : CollEnv) (row : Row)
    (st : PlaybackStatus) (ev : Events) :
    (coll_detail_step env row st ev).1.cancel_requested
      = st.cancel_requested := by
  unfold coll_detail_step
  split
  · split <;> simp [publish_cancel_requested]
  · rfl

theorem coll_artist_stopped (env : CollEnv) (row : Row)
    (st : PlaybackStatus) (ev : Events) :
    (coll_artist_step env row st ev).1.stopped = st.stopped := by
  unfold coll_artist_step
  split
  · split <;> simp [publish_stopped]
  · rfl

theorem coll_artist_cancel (env : CollEnv) (row : Row)
    (st : PlaybackStatus) (ev : Events) :
    (coll_artist_step env row st ev).1.cancel_requested
      = st.cancel_requested := by
  unfold coll_artist_step
  split
  · split <;> simp [publish_cancel_requested]
  · rfl
theorem dg_intro_trace (env : DgEnv) (row : Row) (st : PlaybackStatus)
    (ev : Events) :
    (dg_intro_step env row st ev).2.2 =
      (if env.play_intro = true then
        (match env.intro_job row with
         | some _ => narrTrace env.voice_style "intro"
         | none => [])
      else []) := by
  unfold dg_intro_step
  split
  · split <;> simp [dg_publish_trace]
  · simp_all

theorem dg_detail_trace (env : DgEnv) (row : Row) (st : PlaybackStatus)
    (ev : Events) :
    (dg_detail_step env row st ev).2.2 =
      (if env.play_detail = true then
        (match env.detail_key row with
         | some _ => narrTrace env.voice_style "detail"
         | none => [])
      else []) := by
  unfold dg_detail_step
  split
  · split <;> simp [dg_publish_trace]
  · simp_all

theorem dg_artist_trace (env : DgEnv) (row : Row) (st : PlaybackStatus)
    (ev : Events) :
    (dg_artist_step env row st ev).2.2 =
      (if env.play_artist_description = true then
        (match env.artist_key row with
         | some _ => narrTrace env.voice_style "artist"
         | none => [])
      else []) := by
  unfold dg_artist_step
  split
  · split <;> simp [dg_publish_trace]
  · simp_all

/-- The narration phases named by a trace, in publication order. -/
def narrationPhases (tr : List Act) : List String :=
  tr.filterMap fun a =>
    match a with
    | Act.phasePub ph _ =>
      if ph = "intro" ∨ ph = "detail" ∨ ph = "artist" then some ph else none
    | _ => none

theorem narrationPhases_append (t1 t2 : List Act) :
    narrationPhases (t1 ++ t2) =
      narrationPhases t1 ++ narrationPhases t2 := by
  simp [narrationPhases]

theorem narrationPhases_narrTrace_intro (vs : String) :
    narrationPhases (narrTrace vs "intro") = ["intro"] := by
  unfold narrTrace narrationPhases
  split <;> simp

theorem narrationPhases_narrTrace_detail (vs : String) :
    narrationPhases (narrTrace vs "detail") = ["detail"] := by
  unfold narrTrace narrationPhases
  split <;> simp

theorem narrationPhases_narrTrace_artist (vs : String) :
    narrationPhases (narrTrace vs "artist") = ["artist"] := by
  unfold narrTrace narrationPhases
  split <;> simp

theorem waitTrackDone_notin_narrTrace (vs ph : String) :
    Act.waitTrackDone ∉ narrTrace vs ph := by
  unfold narrTrace
  split <;> simp

theorem clearTrackDone_notin_narrTrace (vs ph : String) :
    Act.clearTrackDone ∉ narrTrace vs ph := by
  unfold narrTrace
  split <;> simp
/-- The intro part of a run's trace, as a function of the environment. -/
def collIntroTrace (env : CollEnv) (row : Row) : List Act :=
  if env.play_intro = true then
    (match env.intro_job row with
     | some _ => narrTrace env.voice_style "intro"
     | none => [])
  else []

/-- The detail part of a run's trace. -/
def collDetailTrace (env : CollEnv) (row : Row) : List Act :=
  if env.play_detail = true then
    (match env.detail_key row with
     | some _ => narrTrace env.voice_style "detail"
     | none => [])
  else []

/-- The artist part of a run's trace. -/
def collArtistTrace (env : CollEnv) (row : Row) : List Act :=
  if env.play_artist_description = true then
    (match env.artist_key row with
     | some _ => narrTrace env.voice_style "artist"
     | none => [])
  else []

/-- The track-frame part of a single-rank run's trace. -/
def collTrackTrace (env : CollEnv) (row : Row) : List Act :=
  if env.play_track = true then
    (match row.spotify_track_id with
     | some tid => [Act.phasePub "track" (some tid)]
     | none => [])
  else []

theorem coll_run_shape (env : CollEnv) (st : PlaybackStatus)
    (fl : PlaybackFlags) (ev : Events) (r0 row : Row) (rs rest : List Row)
    (hrows : env.rows = r0 :: rs)
    (hord : inline_order (r0 :: rs) env.mode env.shuffle_oracle
      = row :: rest) :
    (run_collection_sequence env st fl ev).trace =
      [Act.fetchRows, Act.markPlayingAct] ++ collIntroTrace env row
        ++ collDetailTrace env row ++ collArtistTrace env row
        ++ collTrackTrace env row ∧
    (run_collection_sequence env st fl ev).selected = some row := by
  unfold run_collection_sequence
  rw [hrows]
  dsimp only
  rw [hord]
  dsimp only
  refine ⟨?_, rfl⟩
  rw [coll_intro_trace, coll_detail_trace, coll_artist_trace]
  unfold collIntroTrace collDetailTrace collArtistTrace collTrackTrace
  congr 1
  split
  · split <;> rfl
  · rfl
theorem runner_teardown_trace (o : RunOut) :
    (runner_teardown o).trace = o.trace := rfl

theorem runner_teardown_selected (o : RunOut) :
    (runner_teardown o).selected = o.selected := rfl

theorem runner_teardown_outcome (o : RunOut) :
    (runner_teardown o).outcome = o.outcome := rfl

theorem runner_teardown_status (o : RunOut) :
    (runner_teardown o).status = o.status := rfl

theorem runner_teardown_is_playing (o : RunOut) :
    (runner_teardown o).flags.is_playing = false := rfl

theorem runner_teardown_stopped (o : RunOut) :
    (runner_teardown o).flags.stopped = true := rfl

/-- The intro part of a decade/genre run's trace. -/
def dgIntroTrace (env : DgEnv) (row : Row) : List Act :=
  if env.play_intro = true then
    (match env.intro_job row with
     | some _ => narrTrace env.voice_style "intro"
     | none => [])
  else []

/-- The detail part of a decade/genre run's trace. -/
def dgDetailTrace (env : DgEnv) (row : Row) : List Act :=
  if env.play_detail = true then
    (match env.detail_key row with
     | some _ => narrTrace env.voice_style "detail"
     | none => [])
  else []

/-- The artist part of a decade/genre run's trace. -/
def dgArtistTrace (env : DgEnv) (row : Row) : List Act :=
  if env.play_artist_description = true then
    (match env.artist_key row with
     | some _ => narrTrace env.voice_style "artist"
     | none => [])
  else []

/-- The track-frame part of a decade/genre run's trace. -/
def dgTrackTrace (env : DgEnv) (row : Row) : List Act :=
  if env.play_track = true then
    (match row.spotify_track_id with
     | some tid => [Act.phasePub "track" (some tid)]
     | none => [])
  else []

theorem dg_run_shape (env : DgEnv) (st : PlaybackStatus)
    (fl : PlaybackFlags) (ev : Events) (r0 row : Row) (rs rest : List Row)
    (hf : env.fault = Fault.noFault)
    (hrows : env.fetch = some (r0 :: rs))
    (hord : (if env.mode = "random"
        then shuffleModel env.shuffle_oracle2
          (order_rows_for_mode (r0 :: rs) env.mode env.shuffle_oracle)
        else order_rows_for_mode (r0 :: rs) env.mode env.shuffle_oracle)
      = row :: rest) :
    (run_decade_genre_sequence env st fl ev).trace =
      [Act.markPlayingAct, Act.phasePub "loading" none, Act.fetchRows,
       Act.phasePub "prelude" none]
        ++ dgIntroTrace env row ++ dgDetailTrace env row
        ++ dgArtistTrace env row ++ dgTrackTrace env row ∧
    (run_decade_genre_sequence env st fl ev).selected = some row := by
  unfold run_decade_genre_sequence
  rw [hf, hrows]
  dsimp only
  rw [if_neg ?hc]
  case hc =>
    simp [is_cancelled_or_stopped, update_phase_stopped,
      update_phase_cancel_requested, mark_playing]
  rw [hord]
  dsimp only [runner_teardown_trace, runner_teardown_selected]
  refine ⟨?_, rfl⟩
  rw [dg_intro_trace, dg_detail_trace, dg_artist_trace]
  unfold dgIntroTrace dgDetailTrace dgArtistTrace dgTrackTrace
  congr 1
  split
  · split <;> rfl
  · rfl
theorem perm_getD_cons_eraseIdx (l : List α) (j : Nat) (d : α)
    (hj : j < l.length) :
    List.Perm (l.getD j d :: l.eraseIdx j) l := by
  induction l generalizing j with
  | nil => simp at hj
  | cons a t ih =>
    cases j with
    | zero => simp
    | succ j =>
      have hj2 : j < t.length := by simpa using hj
      have e1 : (a :: t).getD (j + 1) d :: (a :: t).eraseIdx (j + 1)
          = t.getD j d :: a :: t.eraseIdx j := by simp
      rw [e1]
      exact (List.Perm.swap a (t.getD j d) (t.eraseIdx j)).trans
        ((ih j hj2).cons a)

theorem shuffleModel_perm (ks : List Nat) :
    ∀ (l : List α), List.Perm (shuffleModel ks l) l := by
  induction ks with
  | nil => intro l; simp [shuffleModel]
  | cons k ks ih =>
    intro l
    cases l with
    | nil => simp [shuffleModel]
    | cons x xs =>
      have hj : k % (x :: xs).length < (x :: xs).length :=
        Nat.mod_lt _ (by simp)
      have h1 := (ih ((x :: xs).eraseIdx (k % (x :: xs).length))).cons
        ((x :: xs).getD (k % (x :: xs).length) x)
      have h2 := perm_getD_cons_eraseIdx (x :: xs)
        (k % (x :: xs).length) x hj
      simpa [shuffleModel] using h1.trans h2

theorem orderedInsert_append_of_forall (x : Row) (l : List Row)
    (h : ∀ b ∈ l, ¬ rowGe x b) :
    List.orderedInsert rowGe x l = l ++ [x] := by
  induction l with
  | nil => simp [List.orderedInsert]
  | cons a t ih =>
    rw [List.orderedInsert, if_neg (h a (by simp))]
    rw [ih (fun b hb => h b (by simp [hb]))]
    simp

theorem sort_desc_of_strict (rows : List Row)
    (h : List.Pairwise (fun a b => a.ranking < b.ranking) rows) :
    List.insertionSort rowGe rows = rows.reverse := by
  induction rows with
  | nil => simp
  | cons a t ih =>
    rcases List.pairwise_cons.mp h with ⟨ha, ht⟩
    rw [List.insertionSort, ih ht, orderedInsert_append_of_forall,
      ← List.reverse_cons]
    intro b hb
    have hab : a.ranking < b.ranking := ha b (by simpa using hb)
    simp only [rowGe, not_le]
    exact hab
theorem cont_track_step_trace (env : ContEnv) (row : Row)
    (st : PlaybackStatus) (ev : Events) :
    (cont_track_step env row st ev).2.2 =
      (if env.play_track = true then
        (match row.spotify_track_id with
         | some tid => [Act.clearTrackDone, Act.phasePub "track" (some tid),
             Act.waitTrackDone]
         | none => [])
      else []) := by
  unfold cont_track_step
  split
  · split <;> simp_all
  · simp_all

theorem cont_track_step_stopped (env : ContEnv) (row : Row)
    (st : PlaybackStatus) (ev : Events) :
    (cont_track_step env row st ev).1.stopped = st.stopped := by
  unfold cont_track_step
  split
  · split <;> simp [update_phase_stopped]
  · rfl

theorem cont_track_step_cancel (env : ContEnv) (row : Row)
    (st : PlaybackStatus) (ev : Events) :
    (cont_track_step env row st ev).1.cancel_requested
      = st.cancel_requested := by
  unfold cont_track_step
  split
  · split <;> simp [update_phase_cancel_requested]
  · rfl

theorem cont_item_run_trace (env : ContEnv) (row : Row)
    (st : PlaybackStatus) (fl : PlaybackFlags) (ev : Events) :
    (cont_item_run env row st fl ev).2.2.2 = cont_item_trace env row := by
  unfold cont_item_run cont_item_trace
  dsimp only
  rw [coll_intro_trace, coll_detail_trace, coll_artist_trace,
    cont_track_step_trace]
  simp only [ContEnv.toColl]
  simp [narrTrace, List.append_assoc]

theorem cont_item_run_stopped (env : ContEnv) (row : Row)
    (st : PlaybackStatus) (fl : PlaybackFlags) (ev : Events) :
    (cont_item_run env row st fl ev).1.stopped = st.stopped := by
  unfold cont_item_run
  dsimp only
  rw [cont_track_step_stopped, coll_artist_stopped, coll_detail_stopped,
    coll_intro_stopped, update_phase_stopped]

theorem cont_item_run_cancel (env : ContEnv) (row : Row)
    (st : PlaybackStatus) (fl : PlaybackFlags) (ev : Events) :
    (cont_item_run env row st fl ev).1.cancel_requested
      = st.cancel_requested := by
  unfold cont_item_run
  dsimp only
  rw [cont_track_step_cancel, coll_artist_cancel, coll_detail_cancel,
    coll_intro_cancel, update_phase_cancel_requested]
theorem cont_loop_trace (env : ContEnv) :
    ∀ (rows : List Row) (i : Nat) (st : PlaybackStatus)
      (fl : PlaybackFlags) (ev : Events),
      st.stopped = false → st.cancel_requested = false →
      (cont_loop env i rows st fl ev).trace =
        ((rows.take (cont_take env.cancel_at i rows)).map
          (cont_item_trace env)).flatten := by
  intro rows
  induction rows with
  | nil =>
    intro i st fl ev h1 h2
    simp [cont_loop, cont_take]
  | cons row rest ih =>
    intro i st fl ev h1 h2
    by_cases hc : env.cancel_at.getD i false = true
    · rw [List.getD_eq_getElem?_getD] at hc
      simp [cont_loop, cont_take, hc, h1]
    · rw [Bool.not_eq_true] at hc
      have hrec := ih (i + 1) (cont_item_run env row st fl ev).1
        (cont_item_run env row st fl ev).2.1
        (cont_item_run env row st fl ev).2.2.1
        (by rw [cont_item_run_stopped]; exact h1)
        (by rw [cont_item_run_cancel]; exact h2)
      simp only [cont_loop, cont_take, hc, if_false, Bool.false_eq_true,
        h1, h2, Bool.or_self]
      simp only [List.take_succ_cons, List.map_cons, List.flatten_cons]
      rw [← hrec, ← cont_item_run_trace env row st fl ev]
theorem mark_playing_stopped (st : PlaybackStatus) (m l : String)
    (c : Option PhaseCtx) : (mark_playing st m l c).stopped = false := by
  unfold mark_playing
  split <;> rfl

theorem mark_playing_cancel (st : PlaybackStatus) (m l : String)
    (c : Option PhaseCtx) :
    (mark_playing st m l c).cancel_requested = st.cancel_requested := by
  unfold mark_playing
  split <;> rfl

theorem mark_playing_is_playing (st : PlaybackStatus) (m l : String)
    (c : Option PhaseCtx) : (mark_playing st m l c).is_playing = true := by
  unfold mark_playing
  split <;> rfl

theorem shuffleModel_nil (ks : List Nat) :
    shuffleModel ks ([] : List Row) = [] := by
  cases ks <;> rfl

theorem inline_order_nil (mode : String) (oracle : List Nat) :
    inline_order [] mode oracle = [] := by
  unfold inline_order
  split
  · rfl
  · split
    · exact shuffleModel_nil oracle
    · rfl

theorem cont_run_trace (env : ContEnv) (st : PlaybackStatus)
    (fl : PlaybackFlags) (ev : Events)
    (hf : env.fault = Fault.noFault) :
    (run_collection_continuous_sequence env st fl ev).trace =
      [Act.markPlayingAct, Act.phasePub "loading" none, Act.fetchRows] ++
      (((inline_order env.rows env.mode env.shuffle_oracle).take
          (cont_take env.cancel_at 0
            (inline_order env.rows env.mode env.shuffle_oracle))).map
        (cont_item_trace env)).flatten := by
  unfold run_collection_continuous_sequence
  rw [hf]
  dsimp only
  cases hr : env.rows with
  | nil =>
    simp [runner_teardown_trace, inline_order_nil, cont_take]
  | cons r0 rs =>
    dsimp only [runner_teardown_trace]
    rw [cont_loop_trace]
    · simp
    · rw [update_phase_stopped, mark_playing_stopped]
    · rw [update_phase_cancel_requested, mark_playing_cancel]
theorem start_call_states (s : LaunchSt) (h : launchInv s) :
    (∀ x ∈ (start_new_sequence s).2, x.live.length ≤ 1) ∧
    launchInv (start_new_sequence s).1 := by
  rcases h with ⟨hc, hl⟩ | ⟨t, hc, hl⟩ <;>
    simp [start_new_sequence, cancel_current_sequence, hc, hl, launchInv]

theorem run_calls_states (n : Nat) :
    ∀ (s : LaunchSt), launchInv s →
      ∀ x ∈ (run_calls n s).2, x.live.length ≤ 1 := by
  induction n with
  | zero => intro s _ x hx; simp [run_calls] at hx
  | succ n ih =>
    intro s h x hx
    simp only [run_calls, List.mem_append] at hx
    rcases hx with hx | hx
    · exact (start_call_states s h).1 x hx
    · exact ih _ (start_call_states s h).2 x hx

theorem start_observe_cancel (s : LaunchSt) (t : Nat)
    (ht : s.current = some t) :
    ((start_new_sequence s).2.map
      (fun y => y.flags.cancel_requested)).head? = some true := by
  simp [start_new_sequence, cancel_current_sequence, ht]
/-- C10: the pause handler sets `cancel_requested = true` on the shared
flags, the resume handler sets `is_paused = false` and `is_playing = true`
without clearing `cancel_requested`; hence after pause-then-resume the
flags still carry `cancel_requested = true` and the runners' unified
`_is_cancelled_or_stopped` check reports the sequence as cancelled. -/
theorem pause_resume_cancel_requested (fl : PlaybackFlags) (ev : Events)
    (st : PlaybackStatus) :
    (pause_handler fl ev).1.cancel_requested = true ∧
    (resume_handler (pause_handler fl ev).1).cancel_requested = true ∧
    (resume_handler (pause_handler fl ev).1).is_paused = false ∧
    (resume_handler (pause_handler fl ev).1).is_playing = true ∧
    is_cancelled_or_stopped st (resume_handler (pause_handler fl ev).1)
      = true := by
  simp [pause_handler, resume_handler, is_cancelled_or_stopped]

/-- C8: `cancel_current_sequence` (the body of the `stop` endpoint) is
idempotent — a second call from the state the first left produces the very
same state — and it establishes `is_playing = false`, `stopped = true`,
raising no exception (the embedding is a total function); moreover the
runners' `finally` teardown unconditionally resets
`flags.is_playing = false` and `flags.stopped = true` whatever outcome
(timeout, empty, cancellation, swallowed error, success) ended the
sequence. -/
theorem stop_idempotent_teardown (s : LaunchSt) (env : DgEnv)
    (cenv : ContEnv) (st st2 : PlaybackStatus) (fl fl2 : PlaybackFlags)
    (ev ev2 : Events) :
    (cancel_current_sequence (cancel_current_sequence s).1).1 =
      (cancel_current_sequence s).1 ∧
    (cancel_current_sequence s).1.flags.is_playing = false ∧
    (cancel_current_sequence s).1.flags.stopped = true ∧
    (cancel_current_sequence s).1.flags.is_paused = false ∧
    (run_decade_genre_sequence env st fl ev).flags.is_playing = false ∧
    (run_decade_genre_sequence env st fl ev).flags.stopped = true ∧
    (run_collection_continuous_sequence cenv st2 fl2 ev2).flags.is_playing
      = false ∧
    (run_collection_continuous_sequence cenv st2 fl2 ev2).flags.stopped
      = true := by
  refine ⟨?_, ?_, ?_, ?_, ?_, ?_, ?_, ?_⟩
  · cases hc : s.current <;> simp [cancel_current_sequence, hc]
  · cases hc : s.current <;> simp [cancel_current_sequence, hc]
  · cases hc : s.current <;> simp [cancel_current_sequence, hc]
  · cases hc : s.current <;> simp [cancel_current_sequence, hc]
  · exact runner_teardown_is_playing _
  · exact runner_teardown_stopped _
  · exact runner_teardown_is_playing _
  · exact runner_teardown_stopped _

/-- C1: with cancellation taken as effective (a cancelled task performs no
further mutation — the spec's cooperative-cancellation semantics), every
sequence of lock-serialised `start_new_sequence` calls keeps at most one
live sequence task at every intermediate step (the cancel step always runs
before the spawn step), and a call that finds a previous task first makes
`flags.cancel_requested = true` — visible to that task — before it spawns
and returns. -/
theorem single_flight_invariant (s : LaunchSt) (n : Nat) (t : Nat)
    (h : launchInv s) :
    (∀ x ∈ (run_calls n s).2, x.live.length ≤ 1) ∧
    (s.current = some t →
      ((start_new_sequence s).2.map
        (fun y => y.flags.cancel_requested)).head? = some true) :=
  ⟨run_calls_states n s h, fun ht => start_observe_cancel s t ht⟩

/-- Witness for C1 at a concrete launcher state holding one task. -/
theorem single_flight_invariant_witness :
    launchInv ⟨{}, some 0, [0], 1, 100⟩ ∧
    ((∀ x ∈ (run_calls 2 ⟨{}, some 0, [0], 1, 100⟩).2,
        x.live.length ≤ 1) ∧
     ((⟨{}, some 0, [0], 1, 100⟩ : LaunchSt).current = some 0 →
       ((start_new_sequence ⟨{}, some 0, [0], 1, 100⟩).2.map
         (fun y => y.flags.cancel_requested)).head? = some true)) :=
  ⟨Or.inr ⟨0, rfl, rfl⟩,
   single_flight_invariant ⟨{}, some 0, [0], 1, 100⟩ 2 0
     (Or.inr ⟨0, rfl, rfl⟩)⟩

/-- C4: publishing a narration phase with voice style `"before"` emits the
phase frame, then clears `narration_done_event` and only then waits on it,
so an already-set signal is discarded as stale (the wait begins with the
signal `false` whatever its previous value); with voice style `"over"` the
call returns immediately after the phase update, waiting on no signal and
leaving the events untouched — in both the collection and the
decade/genre variant. -/
theorem narration_wait_semantics (st : PlaybackStatus) (ev : Events)
    (ph : String) (t a : Row) (r : Int) (slug dec gen b k : String)
    (res : String → String → String) :
    (publish_narration_phase st ev ph t a r slug b k "before" res).2.2 =
      [Act.phasePub ph none, Act.clearNarrationDone,
       Act.waitNarrationDone false] ∧
    (publish_narration_phase st ev ph t a r slug b k "over" res).2.2 =
      [Act.phasePub ph none] ∧
    (publish_narration_phase st ev ph t a r slug b k "over" res).2.1 = ev ∧
    (dg_publish_narration_phase st ev ph t a r dec gen b k "before"
      res).2.2 =
      [Act.phasePub ph none, Act.clearNarrationDone,
       Act.waitNarrationDone false] ∧
    (dg_publish_narration_phase st ev ph t a r dec gen b k "over"
      res).2.2 = [Act.phasePub ph none] ∧
    (dg_publish_narration_phase st ev ph t a r dec gen b k "over"
      res).2.1 = ev := by
  refine ⟨?_, ?_, ?_, ?_, ?_, ?_⟩ <;>
    simp [publish_narration_phase, dg_publish_narration_phase]
theorem applyKw_is_playing_none (st : PlaybackStatus) (kw : UpdateKw)
    (h : kw.is_playing = none) :
    (applyKw st kw).is_playing = st.is_playing := by
  unfold applyKw
  rw [h]
  repeat' split
  all_goals first | rfl | simp_all

theorem update_phase_is_playing (st : PlaybackStatus) (ph : String)
    (kw : UpdateKw) (h : kw.is_playing = none) :
    (update_phase st ph kw).is_playing = st.is_playing := by
  unfold update_phase
  repeat' split
  all_goals simp [applyKw_is_playing_none _ _ h, apply_ite]

theorem dg_empty_shape (env : DgEnv) (st : PlaybackStatus)
    (fl : PlaybackFlags) (ev : Events)
    (hf : env.fault = Fault.noFault) (he : env.fetch = some []) :
    (run_decade_genre_sequence env st fl ev).outcome = Outcome.normal ∧
    (run_decade_genre_sequence env st fl ev).selected = none ∧
    (run_decade_genre_sequence env st fl ev).trace =
      [Act.markPlayingAct, Act.phasePub "loading" none, Act.fetchRows] ∧
    (run_decade_genre_sequence env st fl ev).flags.is_playing = false ∧
    (run_decade_genre_sequence env st fl ev).flags.stopped = true ∧
    (run_decade_genre_sequence env st fl ev).status.is_playing = true := by
  unfold run_decade_genre_sequence
  rw [hf, he]
  dsimp only [runner_teardown]
  refine ⟨rfl, rfl, rfl, rfl, rfl, ?_⟩
  rw [update_phase_is_playing _ _ _ rfl, mark_playing_is_playing]

theorem dg_timeout_shape (env : DgEnv) (st : PlaybackStatus)
    (fl : PlaybackFlags) (ev : Events)
    (hf : env.fault = Fault.noFault) (he : env.fetch = none) :
    (run_decade_genre_sequence env st fl ev).outcome = Outcome.normal ∧
    (run_decade_genre_sequence env st fl ev).selected = none ∧
    (run_decade_genre_sequence env st fl ev).trace =
      [Act.markPlayingAct, Act.phasePub "loading" none, Act.fetchRows] ∧
    (run_decade_genre_sequence env st fl ev).flags.is_playing = false ∧
    (run_decade_genre_sequence env st fl ev).flags.stopped = true := by
  unfold run_decade_genre_sequence
  rw [hf, he]
  dsimp only [runner_teardown]
  exact ⟨rfl, rfl, rfl, rfl, rfl⟩

theorem coll_empty_shape (cenv : CollEnv) (st : PlaybackStatus)
    (fl : PlaybackFlags) (ev : Events) (hc : cenv.rows = []) :
    (run_collection_sequence cenv st fl ev).trace = [Act.fetchRows] ∧
    (run_collection_sequence cenv st fl ev).status = st ∧
    (run_collection_sequence cenv st fl ev).flags = fl ∧
    (run_collection_sequence cenv st fl ev).selected = none ∧
    (run_collection_sequence cenv st fl ev).outcome = Outcome.normal := by
  unfold run_collection_sequence
  rw [hc]
  exact ⟨rfl, rfl, rfl, rfl, rfl⟩
/-- A concrete decade/genre environment whose catalog fetch returns zero
rows. -/
def c2Env : DgEnv :=
  { decade := "1980s", genre := "rock", start_rank := 1, end_rank := 1,
    mode := "count_up", tts_language := "en", play_intro := true,
    play_detail := true, play_artist_description := true,
    play_track := true, voice_style := "before", fetch := some [],
    shuffle_oracle := [], shuffle_oracle2 := [],
    intro_job := fun _ => none, detail_key := fun _ => none,
    artist_key := fun _ => none,
    resolver := fun b k => b ++ "/" ++ k, fault := Fault.noFault }

/-- C2 counterexample: on a zero-row fetch the decade/genre runner has
already published a `loading` phase frame (a phase mutation during the
run) and leaves `status.is_playing = true` — the claim's "no phase is
published" and "PlaybackStatus is left with isPlaying=false" are both
false on the code. -/
theorem empty_result_counterexample :
    Act.phasePub "loading" none ∈
      (run_decade_genre_sequence c2Env {} {} {}).trace ∧
    (run_decade_genre_sequence c2Env {} {} {}).status.is_playing = true ∧
    (run_decade_genre_sequence c2Env {} {} {}).flags.is_playing = false := by
  have h := dg_empty_shape c2Env {} {} {} rfl rfl
  refine ⟨?_, h.2.2.2.2.2, h.2.2.2.1⟩
  rw [h.2.2.1]
  simp

/-- C2 amended: given zero catalog rows both runners return normally with
no item selected and no `"empty"` status surfaced to the caller.  The
decade/genre runner has already called `mark_playing` and published a
`loading` frame before the fetch, so it ends with
`status.is_playing = true` while its `finally` resets only the legacy
flags (`is_playing = false`, `stopped = true`); the single-rank collection
runner returns before `mark_playing` and leaves status and flags exactly
as they were. -/
theorem empty_result_amended (env : DgEnv) (cenv : CollEnv)
    (st st2 : PlaybackStatus) (fl fl2 : PlaybackFlags) (ev ev2 : Events)
    (hf : env.fault = Fault.noFault) (he : env.fetch = some [])
    (hc : cenv.rows = []) :
    ((run_decade_genre_sequence env st fl ev).outcome = Outcome.normal ∧
     (run_decade_genre_sequence env st fl ev).selected = none ∧
     (run_decade_genre_sequence env st fl ev).trace =
       [Act.markPlayingAct, Act.phasePub "loading" none, Act.fetchRows] ∧
     (run_decade_genre_sequence env st fl ev).flags.is_playing = false ∧
     (run_decade_genre_sequence env st fl ev).flags.stopped = true ∧
     (run_decade_genre_sequence env st fl ev).status.is_playing = true) ∧
    ((run_collection_sequence cenv st2 fl2 ev2).trace = [Act.fetchRows] ∧
     (run_collection_sequence cenv st2 fl2 ev2).status = st2 ∧
     (run_collection_sequence cenv st2 fl2 ev2).flags = fl2 ∧
     (run_collection_sequence cenv st2 fl2 ev2).selected = none) :=
  ⟨dg_empty_shape env st fl ev hf he,
   (coll_empty_shape cenv st2 fl2 ev2 hc).1,
   (coll_empty_shape cenv st2 fl2 ev2 hc).2.1,
   (coll_empty_shape cenv st2 fl2 ev2 hc).2.2.1,
   (coll_empty_shape cenv st2 fl2 ev2 hc).2.2.2.1⟩

/-- A concrete empty-rows collection environment. -/
def c2CollEnv : CollEnv :=
  { collection_slug := "gold", tts_language := "en", rows := [],
    mode := "count_up", shuffle_oracle := [], play_intro := true,
    play_detail := true, play_artist_description := true,
    play_track := true, voice_style := "before",
    intro_job := fun _ => none, detail_key := fun _ => none,
    artist_key := fun _ => none,
    resolver := fun b k => b ++ "/" ++ k }

/-- Witness for the amended C2 at the concrete zero-row environments. -/
theorem empty_result_amended_witness :
    c2Env.fault = Fault.noFault ∧ c2Env.fetch = some [] ∧
    c2CollEnv.rows = [] ∧
    (((run_decade_genre_sequence c2Env {} {} {}).outcome = Outcome.normal ∧
      (run_decade_genre_sequence c2Env {} {} {}).selected = none ∧
      (run_decade_genre_sequence c2Env {} {} {}).trace =
        [Act.markPlayingAct, Act.phasePub "loading" none, Act.fetchRows] ∧
      (run_decade_genre_sequence c2Env {} {} {}).flags.is_playing = false ∧
      (run_decade_genre_sequence c2Env {} {} {}).flags.stopped = true ∧
      (run_decade_genre_sequence c2Env {} {} {}).status.is_playing
        = true) ∧
     ((run_collection_sequence c2CollEnv {} {} {}).trace =
        [Act.fetchRows] ∧
      (run_collection_sequence c2CollEnv {} {} {}).status = {} ∧
      (run_collection_sequence c2CollEnv {} {} {}).flags = {} ∧
      (run_collection_sequence c2CollEnv {} {} {}).selected = none)) :=
  ⟨rfl, rfl, rfl,
   empty_result_amended c2Env c2CollEnv {} {} {} {} {} {} rfl rfl rfl⟩

/-- A concrete decade/genre environment whose catalog fetch times out. -/
def c7Env : DgEnv :=
  { decade := "1990s", genre := "pop", start_rank := 1, end_rank := 5,
    mode := "count_up", tts_language := "en", play_intro := true,
    play_detail := true, play_artist_description := true,
    play_track := true, voice_style := "before", fetch := none,
    shuffle_oracle := [], shuffle_oracle2 := [],
    intro_job := fun _ => none, detail_key := fun _ => none,
    artist_key := fun _ => none,
    resolver := fun b k => b ++ "/" ++ k, fault := Fault.noFault }

/-- C7 counterexample: when the 30-second fetch bound expires, the
decade/genre runner returns *normally* (outcome `normal`, not a raised or
reported error): no `DataSourceTimeout` error reaches the caller, the
coroutine just logs and stops. -/
theorem fetch_timeout_counterexample :
    (run_decade_genre_sequence c7Env {} {} {}).outcome = Outcome.normal ∧
    (run_decade_genre_sequence c7Env {} {} {}).selected = none ∧
    (run_decade_genre_sequence c7Env {} {} {}).trace =
      [Act.markPlayingAct, Act.phasePub "loading" none, Act.fetchRows] :=
  ⟨(dg_timeout_shape c7Env {} {} {} rfl rfl).1,
   (dg_timeout_shape c7Env {} {} {} rfl rfl).2.1,
   (dg_timeout_shape c7Env {} {} {} rfl rfl).2.2.1⟩

/-- C7 amended: the decade/genre fetch is bounded by the fixed 30s
`asyncio.wait_for` and on expiry the sequence is aborted cleanly — the
runner logs, returns normally with nothing selected and nothing published
beyond the `loading` frame, and its teardown resets the flags; no
`DataSourceTimeout` error is surfaced to the caller (and the collection
runners' catalog fetch is not wrapped in any timeout at all). -/
theorem fetch_timeout_amended (env : DgEnv) (st : PlaybackStatus)
    (fl : PlaybackFlags) (ev : Events)
    (hf : env.fault = Fault.noFault) (he : env.fetch = none) :
    (run_decade_genre_sequence env st fl ev).outcome = Outcome.normal ∧
    (run_decade_genre_sequence env st fl ev).selected = none ∧
    (run_decade_genre_sequence env st fl ev).trace =
      [Act.markPlayingAct, Act.phasePub "loading" none, Act.fetchRows] ∧
    (run_decade_genre_sequence env st fl ev).flags.is_playing = false ∧
    (run_decade_genre_sequence env st fl ev).flags.stopped = true :=
  dg_timeout_shape env st fl ev hf he

/-- Witness for the amended C7 at the concrete timed-out environment. -/
theorem fetch_timeout_amended_witness :
    c7Env.fault = Fault.noFault ∧ c7Env.fetch = none ∧
    ((run_decade_genre_sequence c7Env {} {} {}).outcome = Outcome.normal ∧
     (run_decade_genre_sequence c7Env {} {} {}).selected = none ∧
     (run_decade_genre_sequence c7Env {} {} {}).trace =
       [Act.markPlayingAct, Act.phasePub "loading" none, Act.fetchRows] ∧
     (run_decade_genre_sequence c7Env {} {} {}).flags.is_playing = false ∧
     (run_decade_genre_sequence c7Env {} {} {}).flags.stopped = true) :=
  ⟨rfl, rfl, fetch_timeout_amended c7Env {} {} {} rfl rfl⟩
theorem applyKw_duration_seconds (st : PlaybackStatus) (kw : UpdateKw) :
    (applyKw st kw).duration_seconds = st.duration_seconds := by
  unfold applyKw
  repeat' split
  all_goals rfl

theorem applyKw_elapsed_seconds (st : PlaybackStatus) (kw : UpdateKw) :
    (applyKw st kw).elapsed_seconds = st.elapsed_seconds := by
  unfold applyKw
  repeat' split
  all_goals rfl

theorem update_phase_percent_keys (st : PlaybackStatus) (ph : String)
    (kw : UpdateKw) (c : PhaseCtx) (e d : ℚ)
    (hc : kw.context = some c) (he : c.elapsedSeconds = some e)
    (hd : c.durationSeconds = some d) :
    (update_phase st ph kw).percent_complete =
      if 0 < d then min 100 (e / d * 100) else 0 := by
  unfold update_phase
  rw [hc]
  dsimp only
  rw [he, hd]
  dsimp only
  split <;> simp_all

theorem update_phase_percent_nokeys (st : PlaybackStatus) (ph : String)
    (kw : UpdateKw) (c : PhaseCtx)
    (hc : kw.context = some c) (he : c.elapsedSeconds = none)
    (hd : c.durationSeconds = none) :
    (update_phase st ph kw).percent_complete =
      if 0 < st.duration_seconds then
        min 100 (st.elapsed_seconds / st.duration_seconds * 100)
      else 0 := by
  unfold update_phase
  rw [hc]
  dsimp only
  rw [he, hd]
  dsimp only
  rw [applyKw_duration_seconds, applyKw_elapsed_seconds]
  split <;> simp_all [applyKw_duration_seconds, applyKw_elapsed_seconds]
theorem heartbeat_tick_percent (st : PlaybackStatus) (elapsed total : ℚ)
    (sk : Bool) (rk : Option Int) (tn an : String) :
    ((¬ (total ≤ elapsed)) → sk = false →
      (track_heartbeat_tick st elapsed total sk rk tn an).1.percent_complete
        = if 0 < total then min 100 (elapsed / total * 100) else 0) ∧
    ((total ≤ elapsed ∨ sk = true) →
      (track_heartbeat_tick st elapsed total sk rk tn an).1.percent_complete
        = if 0 < total then 100 else 0) := by
  constructor
  · intro hnc hsk
    unfold track_heartbeat_tick
    rw [hsk]
    dsimp only
    rw [if_neg (by simpa using hnc)]
    rw [update_phase_percent_nokeys _ _ _ _ rfl rfl rfl]
  · intro hcomp
    unfold track_heartbeat_tick
    rw [if_pos (by rcases hcomp with h | h <;> simp [h])]
    rw [update_phase_percent_nokeys _ _ _ _ rfl rfl rfl]
    dsimp only
    split
    next hpos => rw [div_self (ne_of_gt hpos)]; norm_num
    next => rfl
/-- C3 counterexample: `update_phase` with `elapsedSeconds = 1`,
`durationSeconds = 2` stores `percent_complete = 50` — the ratio on a
0–100 percentage scale — not `elapsed/duration` clamped to `[0, 1]`,
which would be `1/2`. -/
theorem percent_complete_counterexample :
    (update_phase {} "track"
      { context := some { elapsedSeconds := some 1
                          durationSeconds := some 2 } }).percent_complete
      = 50 ∧
    min (1 : ℚ) (1 / 2) = 1 / 2 ∧ ¬ ((50 : ℚ) = 1 / 2) := by
  refine ⟨?_, by norm_num, by norm_num⟩
  rw [update_phase_percent_keys _ _ _ _ 1 2 rfl rfl rfl]
  norm_num

/-- C3 amended: every state update that carries elapsed/duration values
stores `percent_complete` on a 0–100 percentage scale: the value is
`min 100 (elapsed/duration * 100)` when the new duration is positive and
`0` when it is not (in particular when it is zero), and it reaches `100.0`
exactly when `elapsed ≥ duration`.  A heartbeat tick yields the same
formula (its direct `0..1` write is immediately overwritten by the
`update_phase` recomputation, whose context carries only snake-case keys),
and its completion branch lands on `100` for positive durations. -/
theorem percent_complete_scale (st : PlaybackStatus) (ph : String)
    (kw : UpdateKw) (c : PhaseCtx) (e d : ℚ)
    (hc : kw.context = some c) (he : c.elapsedSeconds = some e)
    (hd : c.durationSeconds = some d) :
    ((update_phase st ph kw).percent_complete =
      if 0 < d then min 100 (e / d * 100) else 0) ∧
    (0 < d → ((update_phase st ph kw).percent_complete = 100 ↔ d ≤ e)) ∧
    (∀ (st2 : PlaybackStatus) (elapsed total : ℚ) (sk : Bool)
       (rk : Option Int) (tn an : String),
      ((¬ (total ≤ elapsed)) → sk = false →
        (track_heartbeat_tick st2 elapsed total sk rk tn
          an).1.percent_complete
          = if 0 < total then min 100 (elapsed / total * 100) else 0) ∧
      ((total ≤ elapsed ∨ sk = true) →
        (track_heartbeat_tick st2 elapsed total sk rk tn
          an).1.percent_complete
          = if 0 < total then 100 else 0)) := by
  refine ⟨update_phase_percent_keys st ph kw c e d hc he hd, ?_, ?_⟩
  · intro hd0
    rw [update_phase_percent_keys st ph kw c e d hc he hd, if_pos hd0]
    constructor
    · intro hmin
      have h100 : (100 : ℚ) ≤ e / d * 100 := by
        by_contra hlt
        push_neg at hlt
        rw [min_eq_right (le_of_lt hlt)] at hmin
        linarith
      have h1 : (1 : ℚ) ≤ e / d := by linarith
      exact (one_le_div hd0).mp h1
    · intro hde
      have h1 : (1 : ℚ) ≤ e / d := (one_le_div hd0).mpr hde
      have h100 : (100 : ℚ) ≤ e / d * 100 := by linarith
      exact min_eq_left h100
  · intro st2 elapsed total sk rk tn an
    exact heartbeat_tick_percent st2 elapsed total sk rk tn an

/-- Witness for the amended C3 at elapsed 3, duration 2. -/
theorem percent_complete_scale_witness :
    (({ context := some { elapsedSeconds := some 3
                          durationSeconds := some 2 } } : UpdateKw).context =
      some { elapsedSeconds := some 3, durationSeconds := some 2 }) ∧
    (((update_phase {} "track"
        { context := some { elapsedSeconds := some 3
                            durationSeconds := some 2 } }).percent_complete =
        if (0 : ℚ) < 2 then min 100 ((3 : ℚ) / 2 * 100) else 0) ∧
     ((0 : ℚ) < 2 → ((update_phase {} "track"
        { context := some { elapsedSeconds := some 3
                            durationSeconds := some 2 } }).percent_complete
        = 100 ↔ (2 : ℚ) ≤ 3)) ∧
     (∀ (st2 : PlaybackStatus) (elapsed total : ℚ) (sk : Bool)
        (rk : Option Int) (tn an : String),
       ((¬ (total ≤ elapsed)) → sk = false →
         (track_heartbeat_tick st2 elapsed total sk rk tn
           an).1.percent_complete
           = if 0 < total then min 100 (elapsed / total * 100) else 0) ∧
       ((total ≤ elapsed ∨ sk = true) →
         (track_heartbeat_tick st2 elapsed total sk rk tn
           an).1.percent_complete
           = if 0 < total then 100 else 0))) :=
  ⟨rfl, percent_complete_scale {} "track" _ _ 3 2 rfl rfl rfl⟩
/-- C9 counterexample: `order_rows_for_mode` with the ascending policy
*sorts* by rank rather than returning the input order unchanged: on the
input with ranks `[2, 1]` it returns ranks `[1, 2]`, a different list. -/
theorem order_rows_counterexample :
    order_rows_for_mode
      [⟨2, "b", "B", none⟩, ⟨1, "a", "A", none⟩] "count_up" [] =
      [⟨1, "a", "A", none⟩, ⟨2, "b", "B", none⟩] ∧
    ¬ (([⟨1, "a", "A", none⟩, ⟨2, "b", "B", none⟩] : List Row) =
       [⟨2, "b", "B", none⟩, ⟨1, "a", "A", none⟩]) := by
  constructor
  · rfl
  · decide

/-- C9 amended: `order_rows_for_mode` stably sorts by rank (the Python
implementation additionally mutates its input list in place): for input
already strictly ascending by rank — the order the catalog query
guarantees — the ascending policy returns it unchanged, the descending
policy returns its exact reverse, and the random policy returns a
permutation of the input. -/
theorem order_rows_amended (rows : List Row) (oracle : List Nat)
    (h : List.Pairwise (fun a b => a.ranking < b.ranking) rows) :
    order_rows_for_mode rows "count_up" oracle = rows ∧
    order_rows_for_mode rows "count_down" oracle = rows.reverse ∧
    List.Perm (order_rows_for_mode rows "random" oracle) rows := by
  unfold order_rows_for_mode
  refine ⟨?_, ?_, ?_⟩
  · split
    · rfl
    · rw [if_pos rfl]
      exact List.Sorted.insertionSort_eq
        (List.Pairwise.imp (fun hab => le_of_lt hab) h)
  · split
    next hnil => rw [hnil]; rfl
    · rw [if_neg (by decide), if_pos rfl]
      exact sort_desc_of_strict rows h
  · split
    next hnil => exact List.Perm.refl _
    · rw [if_neg (by decide), if_neg (by decide)]
      exact shuffleModel_perm oracle rows

/-- Witness for the amended C9 on ranks `[1, 2, 3]` with a nontrivial
shuffle oracle. -/
theorem order_rows_amended_witness :
    List.Pairwise (fun a b => a.ranking < b.ranking)
      ([⟨1, "a", "A", none⟩, ⟨2, "b", "B", none⟩,
        ⟨3, "c", "C", none⟩] : List Row) ∧
    (order_rows_for_mode
      [⟨1, "a", "A", none⟩, ⟨2, "b", "B", none⟩, ⟨3, "c", "C", none⟩]
      "count_up" [1, 0] =
      [⟨1, "a", "A", none⟩, ⟨2, "b", "B", none⟩, ⟨3, "c", "C", none⟩] ∧
     order_rows_for_mode
      [⟨1, "a", "A", none⟩, ⟨2, "b", "B", none⟩, ⟨3, "c", "C", none⟩]
      "count_down" [1, 0] =
      ([⟨1, "a", "A", none⟩, ⟨2, "b", "B", none⟩,
        ⟨3, "c", "C", none⟩] : List Row).reverse ∧
     List.Perm (order_rows_for_mode
      [⟨1, "a", "A", none⟩, ⟨2, "b", "B", none⟩, ⟨3, "c", "C", none⟩]
      "random" [1, 0])
      [⟨1, "a", "A", none⟩, ⟨2, "b", "B", none⟩, ⟨3, "c", "C", none⟩]) :=
  ⟨by decide,
   order_rows_amended
     [⟨1, "a", "A", none⟩, ⟨2, "b", "B", none⟩, ⟨3, "c", "C", none⟩]
     [1, 0] (by decide)⟩
theorem narrationPhases_opt (c : Bool) (o : Option (String × String))
    (vs ph : String) (hph : ph = "intro" ∨ ph = "detail" ∨ ph = "artist") :
    narrationPhases
      (if c = true then
        (match o with | some _ => narrTrace vs ph | none => [])
      else []) = [] ∨
    narrationPhases
      (if c = true then
        (match o with | some _ => narrTrace vs ph | none => [])
      else []) = [ph] := by
  split
  · split
    · right
      unfold narrTrace narrationPhases
      split <;> simp [hph]
    · left; rfl
  · left; rfl

theorem waitTrack_notin_opt (c : Bool) (o : Option (String × String))
    (vs ph : String) :
    Act.waitTrackDone ∉
      (if c = true then
        (match o with | some _ => narrTrace vs ph | none => [])
      else []) := by
  split
  · split
    · exact waitTrackDone_notin_narrTrace _ _
    · simp
  · simp

theorem collTrackTrace_eq (env : CollEnv) (row : Row) (tid : String)
    (h1 : env.play_track = true) (h2 : row.spotify_track_id = some tid) :
    collTrackTrace env row = [Act.phasePub "track" (some tid)] := by
  unfold collTrackTrace
  rw [if_pos h1, h2]

theorem dgTrackTrace_eq (env : DgEnv) (row : Row) (tid : String)
    (h1 : env.play_track = true) (h2 : row.spotify_track_id = some tid) :
    dgTrackTrace env row = [Act.phasePub "track" (some tid)] := by
  unfold dgTrackTrace
  rw [if_pos h1, h2]

theorem narrationPhases_collTrack (env : CollEnv) (row : Row) :
    narrationPhases (collTrackTrace env row) = [] := by
  unfold collTrackTrace
  split
  · split <;> simp [narrationPhases]
  · rfl

theorem narrationPhases_dgTrack (env : DgEnv) (row : Row) :
    narrationPhases (dgTrackTrace env row) = [] := by
  unfold dgTrackTrace
  split
  · split <;> simp [narrationPhases]
  · rfl

theorem waitTrack_notin_collTrack (env : CollEnv) (row : Row) :
    Act.waitTrackDone ∉ collTrackTrace env row := by
  unfold collTrackTrace
  split
  · split <;> simp
  · simp

theorem waitTrack_notin_dgTrack (env : DgEnv) (row : Row) :
    Act.waitTrackDone ∉ dgTrackTrace env row := by
  unfold dgTrackTrace
  split
  · split <;> simp
  · simp

theorem sublist_three (x y z : List String)
    (hx : x = [] ∨ x = ["intro"]) (hy : y = [] ∨ y = ["detail"])
    (hz : z = [] ∨ z = ["artist"]) :
    List.Sublist (x ++ y ++ z) ["intro", "detail", "artist"] := by
  rcases hx with hx | hx <;> rcases hy with hy | hy <;>
    rcases hz with hz | hz <;> subst hx <;> subst hy <;> subst hz <;>
    decide
theorem narrationPhases_collIntro (env : CollEnv) (row : Row) :
    narrationPhases (collIntroTrace env row) = [] ∨
    narrationPhases (collIntroTrace env row) = ["intro"] := by
  unfold collIntroTrace
  exact narrationPhases_opt _ _ _ _ (Or.inl rfl)

theorem narrationPhases_collDetail (env : CollEnv) (row : Row) :
    narrationPhases (collDetailTrace env row) = [] ∨
    narrationPhases (collDetailTrace env row) = ["detail"] := by
  unfold collDetailTrace
  exact narrationPhases_opt _ _ _ _ (Or.inr (Or.inl rfl))

theorem narrationPhases_collArtist (env : CollEnv) (row : Row) :
    narrationPhases (collArtistTrace env row) = [] ∨
    narrationPhases (collArtistTrace env row) = ["artist"] := by
  unfold collArtistTrace
  exact narrationPhases_opt _ _ _ _ (Or.inr (Or.inr rfl))

theorem narrationPhases_dgIntro (env : DgEnv) (row : Row) :
    narrationPhases (dgIntroTrace env row) = [] ∨
    narrationPhases (dgIntroTrace env row) = ["intro"] := by
  unfold dgIntroTrace
  exact narrationPhases_opt _ _ _ _ (Or.inl rfl)

theorem narrationPhases_dgDetail (env : DgEnv) (row : Row) :
    narrationPhases (dgDetailTrace env row) = [] ∨
    narrationPhases (dgDetailTrace env row) = ["detail"] := by
  unfold dgDetailTrace
  exact narrationPhases_opt _ _ _ _ (Or.inr (Or.inl rfl))

theorem narrationPhases_dgArtist (env : DgEnv) (row : Row) :
    narrationPhases (dgArtistTrace env row) = [] ∨
    narrationPhases (dgArtistTrace env row) = ["artist"] := by
  unfold dgArtistTrace
  exact narrationPhases_opt _ _ _ _ (Or.inr (Or.inr rfl))

theorem waitTrack_notin_collIntro (env : CollEnv) (row : Row) :
    Act.waitTrackDone ∉ collIntroTrace env row := by
  unfold collIntroTrace
  exact waitTrack_notin_opt _ _ _ _

theorem waitTrack_notin_collDetail (env : CollEnv) (row : Row) :
    Act.waitTrackDone ∉ collDetailTrace env row := by
  unfold collDetailTrace
  exact waitTrack_notin_opt _ _ _ _

theorem waitTrack_notin_collArtist (env : CollEnv) (row : Row) :
    Act.waitTrackDone ∉ collArtistTrace env row := by
  unfold collArtistTrace
  exact waitTrack_notin_opt _ _ _ _

theorem waitTrack_notin_dgIntro (env : DgEnv) (row : Row) :
    Act.waitTrackDone ∉ dgIntroTrace env row := by
  unfold dgIntroTrace
  exact waitTrack_notin_opt _ _ _ _

theorem waitTrack_notin_dgDetail (env : DgEnv) (row : Row) :
    Act.waitTrackDone ∉ dgDetailTrace env row := by
  unfold dgDetailTrace
  exact waitTrack_notin_opt _ _ _ _

theorem waitTrack_notin_dgArtist (env : DgEnv) (row : Row) :
    Act.waitTrackDone ∉ dgArtistTrace env row := by
  unfold dgArtistTrace
  exact waitTrack_notin_opt _ _ _ _
/-- C5: in single-rank mode, with a non-empty ordered candidate list, both
runners select exactly the head of the ordered list, publish narration
phases only from the enabled set and only in the order
intro → detail → artist (the published narration phases form a sublist of
`["intro", "detail", "artist"]`), then — when `play_track` is set and the
selected row carries a Spotify id — publish a final `track` frame carrying
that id as the very last action, and at no point wait on
`track_done_event` (the run returns without waiting for track
completion). -/
theorem single_rank_selects_head (env : CollEnv) (denv : DgEnv)
    (st std : PlaybackStatus) (fl fld : PlaybackFlags) (ev evd : Events)
    (r0 row r0d rowd : Row) (rs rest rsd restd : List Row)
    (hrows : env.rows = r0 :: rs)
    (hord : inline_order (r0 :: rs) env.mode env.shuffle_oracle
      = row :: rest)
    (hf : denv.fault = Fault.noFault)
    (hfetch : denv.fetch = some (r0d :: rsd))
    (hordd : (if denv.mode = "random"
        then shuffleModel denv.shuffle_oracle2
          (order_rows_for_mode (r0d :: rsd) denv.mode denv.shuffle_oracle)
        else order_rows_for_mode (r0d :: rsd) denv.mode
          denv.shuffle_oracle) = rowd :: restd) :
    ((run_collection_sequence env st fl ev).selected = some row ∧
     List.Sublist
       (narrationPhases (run_collection_sequence env st fl ev).trace)
       ["intro", "detail", "artist"] ∧
     (∀ tid, env.play_track = true → row.spotify_track_id = some tid →
       (run_collection_sequence env st fl ev).trace.getLast? =
         some (Act.phasePub "track" (some tid))) ∧
     Act.waitTrackDone ∉ (run_collection_sequence env st fl ev).trace) ∧
    ((run_decade_genre_sequence denv std fld evd).selected = some rowd ∧
     List.Sublist
       (narrationPhases (run_decade_genre_sequence denv std fld evd).trace)
       ["intro", "detail", "artist"] ∧
     (∀ tid, denv.play_track = true → rowd.spotify_track_id = some tid →
       (run_decade_genre_sequence denv std fld evd).trace.getLast? =
         some (Act.phasePub "track" (some tid))) ∧
     Act.waitTrackDone ∉
       (run_decade_genre_sequence denv std fld evd).trace) := by
  obtain ⟨htr, hsel⟩ := coll_run_shape env st fl ev r0 row rs rest
    hrows hord
  obtain ⟨htrd, hseld⟩ := dg_run_shape denv std fld evd r0d rowd rsd restd
    hf hfetch hordd
  refine ⟨⟨hsel, ?_, ?_, ?_⟩, hseld, ?_, ?_, ?_⟩
  · rw [htr]
    simp only [narrationPhases_append]
    have hp : narrationPhases [Act.fetchRows, Act.markPlayingAct] = [] :=
      rfl
    rw [hp, narrationPhases_collTrack, List.nil_append, List.append_nil]
    exact sublist_three _ _ _ (narrationPhases_collIntro env row)
      (narrationPhases_collDetail env row)
      (narrationPhases_collArtist env row)
  · intro tid h1 h2
    rw [htr, collTrackTrace_eq env row tid h1 h2]
    exact List.getLast?_concat _
  · rw [htr]
    simp only [List.mem_append, not_or]
    refine ⟨⟨⟨⟨by simp, waitTrack_notin_collIntro env row⟩,
      waitTrack_notin_collDetail env row⟩,
      waitTrack_notin_collArtist env row⟩,
      waitTrack_notin_collTrack env row⟩
  · rw [htrd]
    simp only [narrationPhases_append]
    have hp : narrationPhases [Act.markPlayingAct,
      Act.phasePub "loading" none, Act.fetchRows,
      Act.phasePub "prelude" none] = [] := rfl
    rw [hp, narrationPhases_dgTrack, List.nil_append, List.append_nil]
    exact sublist_three _ _ _ (narrationPhases_dgIntro denv rowd)
      (narrationPhases_dgDetail denv rowd)
      (narrationPhases_dgArtist denv rowd)
  · intro tid h1 h2
    rw [htrd, dgTrackTrace_eq denv rowd tid h1 h2]
    exact List.getLast?_concat _
  · rw [htrd]
    simp only [List.mem_append, not_or]
    refine ⟨⟨⟨⟨by simp, waitTrack_notin_dgIntro denv rowd⟩,
      waitTrack_notin_dgDetail denv rowd⟩,
      waitTrack_notin_dgArtist denv rowd⟩,
      waitTrack_notin_dgTrack denv rowd⟩
/-- A concrete row with a Spotify id, for witnesses. -/
def c5Row : Row := ⟨1, "a", "A", some "sp1"⟩

/-- A second concrete row. -/
def c5Row2 : Row := ⟨2, "b", "B", none⟩

/-- A concrete two-row collection environment. -/
def c5CollEnv : CollEnv :=
  { collection_slug := "gold", tts_language := "en",
    rows := [c5Row, c5Row2], mode := "count_up", shuffle_oracle := [],
    play_intro := true, play_detail := false,
    play_artist_description := false, play_track := true,
    voice_style := "before",
    intro_job := fun _ => some ("bkt", "key"),
    detail_key := fun _ => none, artist_key := fun _ => none,
    resolver := fun b k => b ++ "/" ++ k }

/-- A concrete one-row decade/genre environment. -/
def c5DgEnv : DgEnv :=
  { decade := "1980s", genre := "rock", start_rank := 1, end_rank := 1,
    mode := "count_up", tts_language := "en", play_intro := true,
    play_detail := false, play_artist_description := false,
    play_track := true, voice_style := "over", fetch := some [c5Row],
    shuffle_oracle := [], shuffle_oracle2 := [],
    intro_job := fun _ => some ("bkt", "key"),
    detail_key := fun _ => none, artist_key := fun _ => none,
    resolver := fun b k => b ++ "/" ++ k, fault := Fault.noFault }

/-- Witness for C5 at the concrete environments. -/
theorem single_rank_selects_head_witness :
    c5CollEnv.rows = c5Row :: [c5Row2] ∧
    inline_order (c5Row :: [c5Row2]) c5CollEnv.mode
      c5CollEnv.shuffle_oracle = c5Row :: [c5Row2] ∧
    c5DgEnv.fault = Fault.noFault ∧
    c5DgEnv.fetch = some (c5Row :: []) ∧
    (if c5DgEnv.mode = "random"
      then shuffleModel c5DgEnv.shuffle_oracle2
        (order_rows_for_mode (c5Row :: []) c5DgEnv.mode
          c5DgEnv.shuffle_oracle)
      else order_rows_for_mode (c5Row :: []) c5DgEnv.mode
        c5DgEnv.shuffle_oracle) = c5Row :: [] ∧
    (((run_collection_sequence c5CollEnv {} {} {}).selected =
        some c5Row ∧
      List.Sublist
        (narrationPhases (run_collection_sequence c5CollEnv {} {} {}).trace)
        ["intro", "detail", "artist"] ∧
      (∀ tid, c5CollEnv.play_track = true →
        c5Row.spotify_track_id = some tid →
        (run_collection_sequence c5CollEnv {} {} {}).trace.getLast? =
          some (Act.phasePub "track" (some tid))) ∧
      Act.waitTrackDone ∉
        (run_collection_sequence c5CollEnv {} {} {}).trace) ∧
     ((run_decade_genre_sequence c5DgEnv {} {} {}).selected =
        some c5Row ∧
      List.Sublist
        (narrationPhases
          (run_decade_genre_sequence c5DgEnv {} {} {}).trace)
        ["intro", "detail", "artist"] ∧
      (∀ tid, c5DgEnv.play_track = true →
        c5Row.spotify_track_id = some tid →
        (run_decade_genre_sequence c5DgEnv {} {} {}).trace.getLast? =
          some (Act.phasePub "track" (some tid))) ∧
      Act.waitTrackDone ∉
        (run_decade_genre_sequence c5DgEnv {} {} {}).trace)) :=
  ⟨rfl, rfl, rfl, rfl, rfl,
   single_rank_selects_head c5CollEnv c5DgEnv {} {} {} {} {} {}
     c5Row c5Row c5Row c5Row [c5Row2] [c5Row2] [] []
     rfl rfl rfl rfl rfl⟩
theorem clearTrack_notin_opt (c : Bool) (o : Option (String × String))
    (vs ph : String) :
    Act.clearTrackDone ∉
      (if c = true then
        (match o with | some _ => narrTrace vs ph | none => [])
      else []) := by
  split
  · split
    · exact clearTrackDone_notin_narrTrace _ _
    · simp
  · simp

/-- The narration-only prefix of a continuous-loop item trace (everything
before the item's track step). -/
def cont_narr_trace (env : ContEnv) (row : Row) : List Act :=
  Act.phasePub "prelude" none ::
    ((if env.play_intro = true then
        (match env.intro_job row with
         | some _ => narrTrace env.voice_style "intro"
         | none => [])
      else []) ++
     (if env.play_detail = true then
        (match env.detail_key row with
         | some _ => narrTrace env.voice_style "detail"
         | none => [])
      else []) ++
     (if env.play_artist_description = true then
        (match env.artist_key row with
         | some _ => narrTrace env.voice_style "artist"
         | none => [])
      else []))

theorem cont_item_trace_track (env : ContEnv) (row : Row) (tid : String)
    (h1 : env.play_track = true)
    (h2 : row.spotify_track_id = some tid) :
    cont_item_trace env row =
      cont_narr_trace env row ++
        [Act.clearTrackDone, Act.phasePub "track" (some tid),
         Act.waitTrackDone] := by
  unfold cont_item_trace cont_narr_trace
  rw [h1, h2]
  simp [narrTrace, List.append_assoc]

theorem waitTrack_notin_cont_narr (env : ContEnv) (row : Row) :
    Act.waitTrackDone ∉ cont_narr_trace env row := by
  unfold cont_narr_trace
  simp only [List.mem_cons, List.mem_append, not_or]
  exact ⟨by simp, ⟨waitTrack_notin_opt _ _ _ _,
    waitTrack_notin_opt _ _ _ _⟩, waitTrack_notin_opt _ _ _ _⟩

theorem clearTrack_notin_cont_narr (env : ContEnv) (row : Row) :
    Act.clearTrackDone ∉ cont_narr_trace env row := by
  unfold cont_narr_trace
  simp only [List.mem_cons, List.mem_append, not_or]
  exact ⟨by simp, ⟨clearTrack_notin_opt _ _ _ _,
    clearTrack_notin_opt _ _ _ _⟩, clearTrack_notin_opt _ _ _ _⟩

/-- C6: the continuous runner's trace is exactly the reset/loading/fetch
preamble followed by the per-item traces of the ordered items taken up to
the first observed external cancel/stop write; and for every item whose
track frame is published (play_track set, Spotify id present) the item's
trace ends with `track_done_event.clear()`, the track publish, and the
`track_done_event` wait — the clear precedes the wait, both occur nowhere
earlier in the item, and no action of any later item precedes the wait, so
the loop never advances before the signal is set, looping until the list
is exhausted, cancellation/stop is observed, or an error occurs. -/
theorem continuous_waits_track_done (env : ContEnv) (st : PlaybackStatus)
    (fl : PlaybackFlags) (ev : Events)
    (hf : env.fault = Fault.noFault) :
    (run_collection_continuous_sequence env st fl ev).trace =
      [Act.markPlayingAct, Act.phasePub "loading" none, Act.fetchRows] ++
      (((inline_order env.rows env.mode env.shuffle_oracle).take
          (cont_take env.cancel_at 0
            (inline_order env.rows env.mode env.shuffle_oracle))).map
        (cont_item_trace env)).flatten ∧
    (∀ row tid, env.play_track = true → row.spotify_track_id = some tid →
      cont_item_trace env row =
        cont_narr_trace env row ++
          [Act.clearTrackDone, Act.phasePub "track" (some tid),
           Act.waitTrackDone] ∧
      Act.waitTrackDone ∉ cont_narr_trace env row ∧
      Act.clearTrackDone ∉ cont_narr_trace env row) := by
  refine ⟨cont_run_trace env st fl ev hf, ?_⟩
  intro row tid h1 h2
  exact ⟨cont_item_trace_track env row tid h1 h2,
    waitTrack_notin_cont_narr env row, clearTrack_notin_cont_narr env row⟩
/-- A concrete row with a Spotify id for the continuous-mode witness. -/
def c6RowA : Row := ⟨1, "a", "A", some "spA"⟩

/-- A second concrete row for the continuous-mode witness. -/
def c6RowB : Row := ⟨2, "b", "B", some "spB"⟩

/-- A concrete two-row continuous environment with no cancellation. -/
def c6Env : ContEnv :=
  { collection_slug := "gold", tts_language := "en", start_rank := 1,
    rows := [c6RowA, c6RowB], mode := "count_up", shuffle_oracle := [],
    play_intro := true, play_detail := false,
    play_artist_description := false, play_track := true,
    voice_style := "before",
    intro_job := fun _ => some ("bkt", "key"),
    detail_key := fun _ => none, artist_key := fun _ => none,
    resolver := fun b k => b ++ "/" ++ k,
    cancel_at := [false, false], fault := Fault.noFault }

/-- Witness for C6 at the concrete continuous environment. -/
theorem continuous_waits_track_done_witness :
    c6Env.fault = Fault.noFault ∧
    ((run_collection_continuous_sequence c6Env {} {} {}).trace =
      [Act.markPlayingAct, Act.phasePub "loading" none, Act.fetchRows] ++
      (((inline_order c6Env.rows c6Env.mode c6Env.shuffle_oracle).take
          (cont_take c6Env.cancel_at 0
            (inline_order c6Env.rows c6Env.mode c6Env.shuffle_oracle))).map
        (cont_item_trace c6Env)).flatten ∧
     (∀ row tid, c6Env.play_track = true →
       row.spotify_track_id = some tid →
       cont_item_trace c6Env row =
         cont_narr_trace c6Env row ++
           [Act.clearTrackDone, Act.phasePub "track" (some tid),
            Act.waitTrackDone] ∧
       Act.waitTrackDone ∉ cont_narr_trace c6Env row ∧
       Act.clearTrackDone ∉ cont_narr_trace c6Env row)) :=
  ⟨rfl, continuous_waits_track_done c6Env {} {} {} rfl⟩
